import Mathlib

/-! clickhouse-operator: naming, normalization context, schema-replication
planning and metrics writer.

A shallow embedding of `pkg/model/chi/namer.go`,
`pkg/model/chi/schemer/replicated.go`, `pkg/model/chi/normalizer/context.go`,
`pkg/model/k8s/service.go` and `pkg/apis/metrics/prometheus_writer.go`,
followed by the properties proved about them.

Go strings are byte sequences (`len` counts bytes, slicing cuts at byte
offsets), so a Go `string` is embedded as a list of bytes.
-/

namespace ClickHouseOperator

/-! ## Go strings -/

/-- A Go `string`: an immutable sequence of bytes. -/
abbrev GoString := List UInt8

/-- The bytes (UTF-8) of a string literal of the Go source. -/
def str (s : String) : GoString := s.toUTF8.data.toList

/-- Go `strings.Trim` for an ASCII cutset, right end: `trimRightASCII` drops
bytes from the end of `s` while they belong to the cutset. -/
def trimRightASCII (s cutset : GoString) : GoString :=
  s.rdropWhile (fun b => decide (b ∈ cutset))

/-- Go `strings.Trim` for an ASCII cutset, left end: `trimLeftASCII` drops
bytes from the start of `s` while they belong to the cutset. -/
def trimLeftASCII (s cutset : GoString) : GoString :=
  s.dropWhile (fun b => decide (b ∈ cutset))

/-- Go `strings.Trim(s, cutset)` of the standard library, for a cutset of
ASCII bytes (the only cutset of the sources is `"-_."`): the empty string
and the empty cutset return `s`, otherwise the right end is trimmed and
then the left end. -/
def Trim (s cutset : GoString) : GoString :=
  if s = [] ∨ cutset = [] then s
  else trimLeftASCII (trimRightASCII s cutset) cutset

/-- Modelled from the spec: `util.StringHead` (package `pkg/util` is not
among the sources). The spec calls the step truncation to the budget of
the naming context: the string itself when it has at most `maxHeadLen`
bytes, its first `maxHeadLen` bytes otherwise. -/
def StringHead (s : GoString) (maxHeadLen : Nat) : GoString :=
  if s.length ≤ maxHeadLen then s else s.take maxHeadLen

/-! ## namer.go: length budgets and name parts -/

def namePartChiMaxLenNamesCtx : Nat := 60
def namePartClusterMaxLenNamesCtx : Nat := 15
def namePartShardMaxLenNamesCtx : Nat := 15
def namePartReplicaMaxLenNamesCtx : Nat := 15

def namePartChiMaxLenLabelsCtx : Nat := 63
def namePartClusterMaxLenLabelsCtx : Nat := 63
def namePartShardMaxLenLabelsCtx : Nat := 63
def namePartReplicaMaxLenLabelsCtx : Nat := 63

/-- The cutset of `sanitize`: the bytes of `"-_."`. -/
def sanitizeCutset : GoString := str "-_."

/-- Go `sanitize`: `strings.Trim(s, "-_.")`. -/
def sanitize (s : GoString) : GoString := Trim s sanitizeCutset

/-- Go `type namerContext string`. -/
abbrev namerContext := GoString

def namerContextLabels : namerContext := str "labels"
def namerContextNames : namerContext := str "names"

/-- Go `type namer struct { ctx namerContext }`. -/
structure namer where
  ctx : namerContext
deriving DecidableEq, Repr

/-- Go `newNamer`. -/
def newNamer (ctx : namerContext) : namer := { ctx := ctx }

namespace namer

def lenCHI (n : namer) : Nat :=
  if n.ctx = namerContextLabels then namePartChiMaxLenLabelsCtx
  else namePartChiMaxLenNamesCtx

def namePartNamespace (n : namer) (name : GoString) : GoString :=
  sanitize (StringHead name n.lenCHI)

def namePartChiName (n : namer) (name : GoString) : GoString :=
  sanitize (StringHead name n.lenCHI)

def lenCluster (n : namer) : Nat :=
  if n.ctx = namerContextLabels then namePartClusterMaxLenLabelsCtx
  else namePartClusterMaxLenNamesCtx

def namePartClusterName (n : namer) (name : GoString) : GoString :=
  sanitize (StringHead name n.lenCluster)

def lenShard (n : namer) : Nat :=
  if n.ctx = namerContextLabels then namePartShardMaxLenLabelsCtx
  else namePartShardMaxLenNamesCtx

def namePartShardName (n : namer) (name : GoString) : GoString :=
  sanitize (StringHead name n.lenShard)

def lenReplica (n : namer) : Nat :=
  if n.ctx = namerContextLabels then namePartReplicaMaxLenLabelsCtx
  else namePartReplicaMaxLenNamesCtx

def namePartReplicaName (n : namer) (name : GoString) : GoString :=
  sanitize (StringHead name n.lenReplica)

def namePartHostName (n : namer) (name : GoString) : GoString :=
  sanitize (StringHead name n.lenReplica)

end namer

/-- A string ends in one of the bytes `-`, `_`, `.`. -/
def endsInCutset (s : GoString) : Prop :=
  ∃ b ∈ sanitizeCutset, s.getLast? = some b

instance (s : GoString) : Decidable (endsInCutset s) := by
  unfold endsInCutset
  infer_instance

/-- A string starts with one of the bytes `-`, `_`, `.`. -/
def startsInCutset (s : GoString) : Prop :=
  ∃ b ∈ sanitizeCutset, s.head? = some b

instance (s : GoString) : Decidable (startsInCutset s) := by
  unfold startsInCutset
  infer_instance

/-- The test of `sanitize` on a byte: whether it is `-`, `_` or `.`. -/
def inSanitizeCutset (b : UInt8) : Bool := decide (b ∈ sanitizeCutset)

/-! ## Go `fmt.Sprintf` -/

/-- Go `fmt`: the text appended when operands are left over,
`%!(EXTRA string=a, string=b)`; the first operand has no leading comma. -/
def sprintfExtraArgs : Bool → List GoString → GoString
  | _, [] => []
  | true, a :: rest => str "string=" ++ a ++ sprintfExtraArgs false rest
  | false, a :: rest => str ", string=" ++ a ++ sprintfExtraArgs false rest

/-- Go `fmt`: nothing when every operand was used, the `EXTRA` note otherwise. -/
def sprintfExtra (args : List GoString) : GoString :=
  if args = [] then [] else str "%!(EXTRA " ++ sprintfExtraArgs true args ++ str ")"

/-- Go `fmt.Sprintf` of the standard library with string operands, for
formats whose conversions are the plain `%s`, `%v` and `%%` (the ones the
patterns of the sources use): literal bytes are copied, `%%` writes a
percent sign, `%s` and `%v` write the next operand, or `%!s(MISSING)` when
none is left, a `%` that ends the format writes `%!(NOVERB)`, and
operands left over are reported by `sprintfExtra`. Any other byte after
`%` is treated as a verb that does not apply to a string
(`%!d(string=x)`), as `fmt` does for `%d`. The verbs `%q`, `%x` and `%X`,
which `fmt` does apply to a string, and flags, width, precision and
argument indexes are outside the model: on a format that has one of them
the model and `fmt` differ, and no theorem below is about such a format. -/
def Sprintf : GoString → List GoString → GoString
  | [], args => sprintfExtra args
  | [0x25], args => str "%!(NOVERB)" ++ sprintfExtra args
  | 0x25 :: c :: rest, args =>
    if c = 0x25 then 0x25 :: Sprintf rest args
    else
      match args with
      | [] => str "%!" ++ [c] ++ str "(MISSING)" ++ Sprintf rest []
      | a :: args =>
        if c = 0x73 ∨ c = 0x76 then a ++ Sprintf rest args
        else str "%!" ++ [c] ++ str "(string=" ++ a ++ str ")" ++ Sprintf rest args
  | b :: rest, args => b :: Sprintf rest args

/-! ## The topology read by the namer -/

/-- Go `api.ChiClusterAddress`: the identity strings of `Runtime.Address`
of a cluster that the namer reads. -/
structure ChiClusterAddress where
  Namespace : GoString
  CHIName : GoString
  ClusterName : GoString
deriving DecidableEq, Repr

/-- Go `api.ChiShardAddress`: the identity strings of `Runtime.Address` of
a shard that the namer reads. -/
structure ChiShardAddress where
  Namespace : GoString
  CHIName : GoString
  ClusterName : GoString
  ShardName : GoString
deriving DecidableEq, Repr

/-- Go `api.ChiHostAddress`: the identity strings of `Runtime.Address` of a
host (the integer placement fields are not read by the functions embedded
here). -/
structure ChiHostAddress where
  Namespace : GoString
  CHIName : GoString
  ClusterName : GoString
  ShardName : GoString
  ReplicaName : GoString
  HostName : GoString
deriving DecidableEq, Repr

/-- A service or pod template, of which the namer reads `GenerateName`. -/
structure NameTemplate where
  GenerateName : GoString
deriving DecidableEq, Repr

/-- Go `api.SchemaPolicy`. -/
structure SchemaPolicy where
  Replica : GoString
  Shard : GoString
deriving DecidableEq, Repr

/-- The fields of a host (`api.ChiHost`) stored in the installation; the
templates are what `GetServiceTemplate()` and `GetPodTemplate()` return
(`none` when the second result is false). -/
structure ChiHostData where
  Name : GoString
  Address : ChiHostAddress
  ServiceTemplate : Option NameTemplate
  PodTemplate : Option NameTemplate
deriving DecidableEq, Repr

/-- The fields of a shard (`api.ChiShard`) stored in the installation. -/
structure ChiShardData where
  Name : GoString
  Address : ChiShardAddress
  ServiceTemplate : Option NameTemplate
  Hosts : List ChiHostData
deriving DecidableEq, Repr

/-- The fields of a cluster (`api.Cluster`) stored in the installation. -/
structure ClusterData where
  Name : GoString
  Address : ChiClusterAddress
  SchemaPolicy : SchemaPolicy
  ServiceTemplate : Option NameTemplate
  Shards : List ChiShardData
deriving DecidableEq, Repr

/-- Go `api.ClickHouseInstallation`: `NamespaceDomainPattern` is
`Spec.NamespaceDomainPattern`, `ReplicasUseFQDN` is
`Spec.Defaults.ReplicasUseFQDN.IsTrue()`, `ServiceTemplate` is what
`GetCHIServiceTemplate()` returns. -/
structure ClickHouseInstallation where
  Namespace : GoString
  Name : GoString
  NamespaceDomainPattern : GoString
  ReplicasUseFQDN : Bool
  ServiceTemplate : Option NameTemplate
  Clusters : List ClusterData
deriving DecidableEq, Repr

/-- Go `*api.Cluster`: a cluster together with the installation its
`Runtime.CHI` points to. -/
structure Cluster where
  chi : ClickHouseInstallation
  data : ClusterData
deriving DecidableEq, Repr

/-- Go `*api.ChiShard`: a shard together with the installation and the
cluster it belongs to. -/
structure ChiShard where
  chi : ClickHouseInstallation
  cluster : ClusterData
  data : ChiShardData
deriving DecidableEq, Repr

/-- Go `*api.ChiHost`: a host together with the installation, cluster and
shard that `GetCHI()`, `GetCluster()` and `GetShard()` return for it. -/
structure ChiHost where
  chi : ClickHouseInstallation
  cluster : ClusterData
  shard : ChiShardData
  data : ChiHostData
deriving DecidableEq, Repr

/-- Go `*apps.StatefulSet`, of which the namer reads the name. -/
structure StatefulSet where
  Name : GoString
deriving DecidableEq, Repr

namespace ChiHost

def GetCHI (host : ChiHost) : ClickHouseInstallation := host.chi

def GetCluster (host : ChiHost) : Cluster := { chi := host.chi, data := host.cluster }

def GetShard (host : ChiHost) : ChiShard :=
  { chi := host.chi, cluster := host.cluster, data := host.shard }

def GetServiceTemplate (host : ChiHost) : Option NameTemplate := host.data.ServiceTemplate

def GetPodTemplate (host : ChiHost) : Option NameTemplate := host.data.PodTemplate

end ChiHost

/-- Go `shard.WalkHosts`: the hosts of the shard, in order. -/
def ChiShard.WalkHosts (shard : ChiShard) : List ChiHost :=
  shard.data.Hosts.map
    (fun h => { chi := shard.chi, cluster := shard.cluster, shard := shard.data, data := h })

/-- Go `cluster.WalkHosts`: the hosts of every shard of the cluster, shard
by shard. -/
def Cluster.WalkHosts (cluster : Cluster) : List ChiHost :=
  cluster.data.Shards.flatMap
    (fun s => ChiShard.WalkHosts { chi := cluster.chi, cluster := cluster.data, data := s })

/-- Go `chi.WalkHosts`: the hosts of every cluster of the installation,
cluster by cluster. -/
def ClickHouseInstallation.WalkHosts (chi : ClickHouseInstallation) : List ChiHost :=
  chi.Clusters.flatMap (fun c => Cluster.WalkHosts { chi := chi, data := c })

/-- The dynamic type of an `obj interface{}` argument of the namer. -/
inductive Obj where
  | chi (c : ClickHouseInstallation)
  | cluster (c : Cluster)
  | shard (s : ChiShard)
  | host (h : ChiHost)
  | statefulSet (s : StatefulSet)
  | other
deriving DecidableEq, Repr

/-- The dynamic type of the `scope interface{}` argument of `CreateFQDNs`
(a value of `api.ChiHost`, `api.ChiShard`, `api.Cluster`,
`api.ClickHouseInstallation`, or of another type). -/
inductive Scope where
  | host
  | shard
  | cluster
  | chi
  | other
deriving DecidableEq, Repr

/-- The macro expansion of `macro.go`, which is not among the sources:
`Line obj pattern` is `Macro(obj).Line(pattern)`, and the five constants
are the tokens the default patterns are built from. They are parameters
of the development. -/
structure MacrosEngine where
  macrosChiName : GoString
  macrosClusterName : GoString
  macrosShardName : GoString
  macrosReplicaName : GoString
  macrosHostName : GoString
  Line : Obj → GoString → GoString

/-! ## namer.go: patterns, service names and FQDNs -/

def statefulSetNamePattern (m : MacrosEngine) : GoString :=
  str "chi-" ++ m.macrosChiName ++ str "-" ++ m.macrosClusterName ++ str "-" ++ m.macrosHostName

def statefulSetServiceNamePattern (m : MacrosEngine) : GoString :=
  str "chi-" ++ m.macrosChiName ++ str "-" ++ m.macrosClusterName ++ str "-" ++ m.macrosHostName

def namespaceDomainPattern : GoString := str "%s.svc.cluster.local"

def serviceFQDNPattern : GoString := str "%s" ++ str "." ++ namespaceDomainPattern

def podFQDNPattern : GoString := str "%s" ++ str "." ++ namespaceDomainPattern

def podNamePattern : GoString := str "%s-0"

def CreateStatefulSetServiceName (m : MacrosEngine) (host : ChiHost) : GoString :=
  let pattern := statefulSetServiceNamePattern m
  let pattern :=
    match host.GetServiceTemplate with
    | some template => if template.GenerateName ≠ [] then template.GenerateName else pattern
    | none => pattern
  m.Line (Obj.host host) pattern

def CreatePodHostname (m : MacrosEngine) (host : ChiHost) : GoString :=
  CreateStatefulSetServiceName m host

def createPodFQDN (m : MacrosEngine) (host : ChiHost) : GoString :=
  let pattern := podFQDNPattern
  let pattern :=
    if host.GetCHI.NamespaceDomainPattern ≠ [] then str "%s." ++ host.GetCHI.NamespaceDomainPattern
    else pattern
  Sprintf pattern [CreatePodHostname m host, host.data.Address.Namespace]

def createPodFQDNsOfCluster (m : MacrosEngine) (cluster : Cluster) : List GoString :=
  cluster.WalkHosts.map (createPodFQDN m)

def createPodFQDNsOfShard (m : MacrosEngine) (shard : ChiShard) : List GoString :=
  shard.WalkHosts.map (createPodFQDN m)

def createPodFQDNsOfCHI (m : MacrosEngine) (chi : ClickHouseInstallation) : List GoString :=
  chi.WalkHosts.map (createPodFQDN m)

/-- Modelled from the spec: `util.RemoveFromArray` (package `pkg/util` is
not among the sources). The spec describes it as the exclusion of a given
host from the enumerated list: every entry equal to the needle is left
out, the others are kept in order. -/
def RemoveFromArray (needle : GoString) (haystack : List GoString) : List GoString :=
  haystack.filter (fun b => decide (b ≠ needle))

def CreateFQDNs (m : MacrosEngine) (obj : Obj) (scope : Scope) (excludeSelf : Bool) :
    List GoString :=
  match obj with
  | Obj.chi typed => createPodFQDNsOfCHI m typed
  | Obj.cluster typed => createPodFQDNsOfCluster m typed
  | Obj.shard typed => createPodFQDNsOfShard m typed
  | Obj.host typed =>
    let self : GoString := if excludeSelf then createPodFQDN m typed else []
    match scope with
    | Scope.host => RemoveFromArray self [createPodFQDN m typed]
    | Scope.shard => RemoveFromArray self (createPodFQDNsOfShard m typed.GetShard)
    | Scope.cluster => RemoveFromArray self (createPodFQDNsOfCluster m typed.GetCluster)
    | Scope.chi => RemoveFromArray self (createPodFQDNsOfCHI m typed.GetCHI)
    | Scope.other => []
  | _ => []

/-! ## schemer/replicated.go -/

/-- Modelled from the spec: `model.SchemaPolicyShardAll`, a constant that
is not among the sources; the spec names the value `All`. -/
def SchemaPolicyShardAll : GoString := str "All"

/-- Modelled from the spec: `model.SchemaPolicyReplicaNone`, a constant
that is not among the sources; the spec names the value `None`. -/
def SchemaPolicyReplicaNone : GoString := str "None"

def shouldCreateReplicatedObjects (m : MacrosEngine) (host : ChiHost) : Bool :=
  let shard := CreateFQDNs m (Obj.host host) Scope.shard false
  let cluster := CreateFQDNs m (Obj.host host) Scope.cluster false
  -- the statements that follow the `SchemaPolicy.Shard` block
  let afterShardPolicy : Bool :=
    if host.GetCluster.data.SchemaPolicy.Replica = SchemaPolicyReplicaNone then
      false
    else if shard.length ≤ 1 then
      false
    else
      true
  if host.GetCluster.data.SchemaPolicy.Shard = SchemaPolicyShardAll then
    if cluster.length ≥ 2 then
      true
    else
      afterShardPolicy
  else
    afterShardPolicy

/-- Go `context.Context` as `util.IsContextDone` sees it: whether the
context is already done when it is asked. -/
structure Context where
  done : Bool
deriving DecidableEq, Repr

/-- Modelled from the spec: `util.IsContextDone` (package `pkg/util` is
not among the sources) reports whether the cancellation signal of the
operation is already set. -/
def IsContextDone (ctx : Context) : Bool := ctx.done

/-- What a remote query returns: names, statements, and the Go `error`
(`none` is `nil`). -/
structure QueryResult where
  names : List GoString
  sqls : List GoString
  err : Option GoString
deriving DecidableEq, Repr

/-- A remote query issued by the schemer: the method called, the addresses
it is sent to, and the SQL text. -/
inductive RemoteCall where
  | QueryUnzip2Columns (hosts : List GoString) (sql : GoString)
  | QueryUnzipAndApplyUUIDs (hosts : List GoString) (sql : GoString)
deriving DecidableEq, Repr

/-- Go `ClusterSchemer`, the receiver of `getReplicatedObjectsSQLs`. Its
query methods and SQL builders are not among the sources and are
parameters: a query reads and updates the state `σ` of the remote side,
and returns what the remote hosts answer. -/
structure ClusterSchemer (σ : Type) where
  QueryUnzip2Columns : σ → Context → List GoString → GoString → QueryResult × σ
  QueryUnzipAndApplyUUIDs : σ → Context → List GoString → GoString → QueryResult × σ
  sqlCreateDatabaseReplicated : GoString → GoString
  sqlCreateTableReplicated : GoString → GoString
  sqlCreateFunction : GoString → GoString

/-- Modelled from the spec: `debugCreateSQLs` is not among the sources. It
takes the three results of a query and returns two lists; the spec has
every pass produce a (names, statements) pair that enters the
concatenation as it is, so the names and statements are returned
unchanged and the error is dropped. -/
def debugCreateSQLs (r : QueryResult) : List GoString × List GoString :=
  (r.names, r.sqls)

/-- Modelled from the spec: `util.ConcatSlices` (package `pkg/util` is not
among the sources) concatenates the slices it is given, in order. -/
def ConcatSlices (slices : List (List GoString)) : List GoString :=
  slices.flatten

/-- The outcome of `getReplicatedObjectsSQLs`: the three values the Go
function returns, and its effects, namely the remote state after the call
and the remote queries issued, in order. -/
structure ReplicatedObjectsSQLs (σ : Type) where
  names : List GoString
  sqls : List GoString
  err : Option GoString
  remote : σ
  calls : List RemoteCall

def getReplicatedObjectsSQLs {σ : Type} (m : MacrosEngine) (s : ClusterSchemer σ) (remote : σ)
    (ctx : Context) (host : ChiHost) : ReplicatedObjectsSQLs σ :=
  if IsContextDone ctx then
    { names := [], sqls := [], err := none, remote := remote, calls := [] }
  else if !shouldCreateReplicatedObjects m host then
    { names := [], sqls := [], err := none, remote := remote, calls := [] }
  else
    let hosts1 := CreateFQDNs m (Obj.host host) Scope.chi false
    let sql1 := s.sqlCreateDatabaseReplicated host.data.Address.ClusterName
    let q1 := s.QueryUnzip2Columns remote ctx hosts1 sql1
    let databaseNames := (debugCreateSQLs q1.1).1
    let createDatabaseSQLs := (debugCreateSQLs q1.1).2
    let hosts2 := CreateFQDNs m (Obj.host host) Scope.chi false
    let sql2 := s.sqlCreateTableReplicated host.data.Address.ClusterName
    let q2 := s.QueryUnzipAndApplyUUIDs q1.2 ctx hosts2 sql2
    let tableNames := (debugCreateSQLs q2.1).1
    let createTableSQLs := (debugCreateSQLs q2.1).2
    let hosts3 := CreateFQDNs m (Obj.host host) Scope.chi false
    let sql3 := s.sqlCreateFunction host.data.Address.ClusterName
    let q3 := s.QueryUnzip2Columns q2.2 ctx hosts3 sql3
    let functionNames := (debugCreateSQLs q3.1).1
    let createFunctionSQLs := (debugCreateSQLs q3.1).2
    { names := ConcatSlices [databaseNames, tableNames, functionNames]
      sqls := ConcatSlices [createDatabaseSQLs, createTableSQLs, createFunctionSQLs]
      err := none
      remote := q3.2
      calls := [RemoteCall.QueryUnzip2Columns hosts1 sql1,
                RemoteCall.QueryUnzipAndApplyUUIDs hosts2 sql2,
                RemoteCall.QueryUnzip2Columns hosts3 sql3] }

/-! ## The three passes of `getReplicatedObjectsSQLs` -/

/-- The database pass: the first query of `getReplicatedObjectsSQLs`. -/
def databasePass {σ : Type} (m : MacrosEngine) (s : ClusterSchemer σ) (remote : σ)
    (ctx : Context) (host : ChiHost) : QueryResult × σ :=
  s.QueryUnzip2Columns remote ctx (CreateFQDNs m (Obj.host host) Scope.chi false)
    (s.sqlCreateDatabaseReplicated host.data.Address.ClusterName)

/-- The table pass: the second query, issued after the database pass. -/
def tablePass {σ : Type} (m : MacrosEngine) (s : ClusterSchemer σ) (remote : σ)
    (ctx : Context) (host : ChiHost) : QueryResult × σ :=
  s.QueryUnzipAndApplyUUIDs (databasePass m s remote ctx host).2 ctx
    (CreateFQDNs m (Obj.host host) Scope.chi false)
    (s.sqlCreateTableReplicated host.data.Address.ClusterName)

/-- The function pass: the third query, issued after the table pass. -/
def functionPass {σ : Type} (m : MacrosEngine) (s : ClusterSchemer σ) (remote : σ)
    (ctx : Context) (host : ChiHost) : QueryResult × σ :=
  s.QueryUnzip2Columns (tablePass m s remote ctx host).2 ctx
    (CreateFQDNs m (Obj.host host) Scope.chi false)
    (s.sqlCreateFunction host.data.Address.ClusterName)

/-! ## Go `fmt.Sprintf` with string and integer operands -/

/-- Go `strconv.Itoa` and the verb `%d` on an `int`: the decimal digits,
with a leading `-` for a negative number. -/
def Itoa (i : Int) : GoString := str (toString i)

/-- An operand of `fmt.Sprintf` in the sources: a `string` or an `int`. -/
inductive FmtArg where
  | string (s : GoString)
  | int (i : Int)
deriving DecidableEq, Repr

namespace FmtArg

/-- Go `fmt`: the operand as `type=value`, as written in the notes for a
wrong verb and for operands left over. -/
def typed : FmtArg → GoString
  | string s => str "string=" ++ s
  | int i => str "int=" ++ Itoa i

/-- Go `fmt`: whether the verb (a byte) applies to the operand, within the
verbs modelled: `%s` and `%v` to a string, `%d` and `%v` to an integer. -/
def accepts : FmtArg → UInt8 → Bool
  | string _, c => c = 0x73 || c = 0x76
  | int _, c => c = 0x64 || c = 0x76

/-- Go `fmt`: the operand printed by a verb that applies to it. -/
def print : FmtArg → GoString
  | string s => s
  | int i => Itoa i

end FmtArg

/-- Go `fmt`: the operands left over, `type=value` separated by `, `. -/
def sprintfExtraTyped : Bool → List FmtArg → GoString
  | _, [] => []
  | true, a :: rest => a.typed ++ sprintfExtraTyped false rest
  | false, a :: rest => str ", " ++ a.typed ++ sprintfExtraTyped false rest

/-- Go `fmt.Sprintf` of the standard library with string and integer
operands, for formats whose conversions are the plain `%s`, `%d`, `%v` and
`%%`: as `Sprintf`, with `%d` writing an integer operand in decimal and a
verb that does not apply to its operand writing `%!verb(type=value)`. The
other verbs that `fmt` applies to a string or to an integer, flags, width,
precision and argument indexes are outside the model, as for `Sprintf`. -/
def SprintfArgs : GoString → List FmtArg → GoString
  | [], args => if args = [] then [] else str "%!(EXTRA " ++ sprintfExtraTyped true args ++ str ")"
  | [0x25], args =>
    str "%!(NOVERB)"
      ++ (if args = [] then [] else str "%!(EXTRA " ++ sprintfExtraTyped true args ++ str ")")
  | 0x25 :: c :: rest, args =>
    if c = 0x25 then 0x25 :: SprintfArgs rest args
    else
      match args with
      | [] => str "%!" ++ [c] ++ str "(MISSING)" ++ SprintfArgs rest []
      | a :: args =>
        if a.accepts c then a.print ++ SprintfArgs rest args
        else str "%!" ++ [c] ++ str "(" ++ a.typed ++ str ")" ++ SprintfArgs rest args
  | b :: rest, args => b :: SprintfArgs rest args

/-! ## namer.go: resource names -/

/-- Go `*api.ChiReplica`, of which the namer reads the name. -/
structure ChiReplica where
  Name : GoString
deriving DecidableEq, Repr

/-- Go `*api.VolumeClaimTemplate`, of which the namer reads the name. -/
structure VolumeClaimTemplate where
  Name : GoString
deriving DecidableEq, Repr

/-- Go `*core.VolumeMount`, of which the lookup of a claim template reads
the name. -/
structure VolumeMount where
  Name : GoString
deriving DecidableEq, Repr

def ClickHouseInstallation.GetCHIServiceTemplate (chi : ClickHouseInstallation) :
    Option NameTemplate :=
  chi.ServiceTemplate

def Cluster.GetServiceTemplate (cluster : Cluster) : Option NameTemplate :=
  cluster.data.ServiceTemplate

def ChiShard.GetServiceTemplate (shard : ChiShard) : Option NameTemplate :=
  shard.data.ServiceTemplate

def chiServiceNamePattern (m : MacrosEngine) : GoString :=
  str "clickhouse-" ++ m.macrosChiName

def clusterServiceNamePattern (m : MacrosEngine) : GoString :=
  str "cluster-" ++ m.macrosChiName ++ str "-" ++ m.macrosClusterName

def shardServiceNamePattern (m : MacrosEngine) : GoString :=
  str "shard-" ++ m.macrosChiName ++ str "-" ++ m.macrosClusterName ++ str "-"
    ++ m.macrosShardName

def replicaServiceNamePattern (m : MacrosEngine) : GoString :=
  str "shard-" ++ m.macrosChiName ++ str "-" ++ m.macrosClusterName ++ str "-"
    ++ m.macrosReplicaName

def configMapCommonNamePattern (m : MacrosEngine) : GoString :=
  str "chi-" ++ m.macrosChiName ++ str "-common-configd"

def configMapCommonUsersNamePattern (m : MacrosEngine) : GoString :=
  str "chi-" ++ m.macrosChiName ++ str "-common-usersd"

def configMapHostNamePattern (m : MacrosEngine) : GoString :=
  str "chi-" ++ m.macrosChiName ++ str "-deploy-confd-" ++ m.macrosClusterName ++ str "-"
    ++ m.macrosHostName

namespace namer

def getNamePartNamespace (n : namer) (obj : Obj) : GoString :=
  match obj with
  | Obj.chi chi => n.namePartChiName chi.Namespace
  | Obj.cluster cluster => n.namePartChiName cluster.data.Address.Namespace
  | Obj.shard shard => n.namePartChiName shard.data.Address.Namespace
  | Obj.host host => n.namePartChiName host.data.Address.Namespace
  | _ => str "ERROR"

def getNamePartCHIName (n : namer) (obj : Obj) : GoString :=
  match obj with
  | Obj.chi chi => n.namePartChiName chi.Name
  | Obj.cluster cluster => n.namePartChiName cluster.data.Address.CHIName
  | Obj.shard shard => n.namePartChiName shard.data.Address.CHIName
  | Obj.host host => n.namePartChiName host.data.Address.CHIName
  | _ => str "ERROR"

def getNamePartClusterName (n : namer) (obj : Obj) : GoString :=
  match obj with
  | Obj.cluster cluster => n.namePartClusterName cluster.data.Address.ClusterName
  | Obj.shard shard => n.namePartClusterName shard.data.Address.ClusterName
  | Obj.host host => n.namePartClusterName host.data.Address.ClusterName
  | _ => str "ERROR"

def getNamePartShardName (n : namer) (obj : Obj) : GoString :=
  match obj with
  | Obj.shard shard => n.namePartShardName shard.data.Address.ShardName
  | Obj.host host => n.namePartShardName host.data.Address.ShardName
  | _ => str "ERROR"

def getNamePartReplicaName (n : namer) (host : ChiHost) : GoString :=
  n.namePartReplicaName host.data.Address.ReplicaName

def getNamePartHostName (n : namer) (host : ChiHost) : GoString :=
  n.namePartHostName host.data.Address.HostName

end namer

def CreateConfigMapHostName (m : MacrosEngine) (host : ChiHost) : GoString :=
  m.Line (Obj.host host) (configMapHostNamePattern m)

def CreateConfigMapCommonName (m : MacrosEngine) (chi : ClickHouseInstallation) : GoString :=
  m.Line (Obj.chi chi) (configMapCommonNamePattern m)

def CreateConfigMapCommonUsersName (m : MacrosEngine) (chi : ClickHouseInstallation) :
    GoString :=
  m.Line (Obj.chi chi) (configMapCommonUsersNamePattern m)

def CreateCHIServiceName (m : MacrosEngine) (chi : ClickHouseInstallation) : GoString :=
  let pattern := chiServiceNamePattern m
  let pattern :=
    match chi.GetCHIServiceTemplate with
    | some template => if template.GenerateName ≠ [] then template.GenerateName else pattern
    | none => pattern
  m.Line (Obj.chi chi) pattern

def CreateClusterServiceName (m : MacrosEngine) (cluster : Cluster) : GoString :=
  let pattern := clusterServiceNamePattern m
  let pattern :=
    match cluster.GetServiceTemplate with
    | some template => if template.GenerateName ≠ [] then template.GenerateName else pattern
    | none => pattern
  m.Line (Obj.cluster cluster) pattern

def CreateShardServiceName (m : MacrosEngine) (shard : ChiShard) : GoString :=
  let pattern := shardServiceNamePattern m
  let pattern :=
    match shard.GetServiceTemplate with
    | some template => if template.GenerateName ≠ [] then template.GenerateName else pattern
    | none => pattern
  m.Line (Obj.shard shard) pattern

def CreateHostName (_host : ChiHost) (shard : ChiShard) (_shardIndex : Int)
    (replica : ChiReplica) (_replicaIndex : Int) : GoString :=
  Sprintf (str "%s-%s") [shard.data.Name, replica.Name]

def CreateInstanceHostname (m : MacrosEngine) (host : ChiHost) : GoString :=
  if host.GetCHI.ReplicasUseFQDN then createPodFQDN m host
  else CreatePodHostname m host

def IsAutoGeneratedHostName (name : GoString) (host : ChiHost) (shard : ChiShard)
    (shardIndex : Int) (replica : ChiReplica) (replicaIndex : Int) : Bool :=
  if name = CreateHostName host shard shardIndex replica replicaIndex then
    true
  else if name = SprintfArgs (str "%d-%d") [FmtArg.int shardIndex, FmtArg.int replicaIndex] then
    true
  else if name = SprintfArgs (str "%d") [FmtArg.int shardIndex] then
    true
  else if name = SprintfArgs (str "%d") [FmtArg.int replicaIndex] then
    true
  else
    false

def CreateStatefulSetName (m : MacrosEngine) (host : ChiHost) : GoString :=
  let pattern := statefulSetNamePattern m
  let pattern :=
    match host.GetPodTemplate with
    | some template => if template.GenerateName ≠ [] then template.GenerateName else pattern
    | none => pattern
  m.Line (Obj.host host) pattern

def CreatePodName (m : MacrosEngine) (obj : Obj) : GoString :=
  match obj with
  | Obj.statefulSet statefulSet => Sprintf podNamePattern [statefulSet.Name]
  | Obj.host host => Sprintf podNamePattern [CreateStatefulSetName m host]
  | _ => str "unknown-type"

def createPVCName (m : MacrosEngine) (host : ChiHost) (volumeMountName : GoString) : GoString :=
  volumeMountName ++ str "-" ++ CreatePodName m (Obj.host host)

def CreatePVCNameByVolumeClaimTemplate (m : MacrosEngine) (host : ChiHost)
    (volumeClaimTemplate : VolumeClaimTemplate) : GoString :=
  createPVCName m host volumeClaimTemplate.Name

/-- Go `CreatePVCNameByVolumeMount`. The lookup `GetVolumeClaimTemplate` is
not among the sources and is a parameter: `none` is its second result
being false. -/
def CreatePVCNameByVolumeMount (m : MacrosEngine)
    (GetVolumeClaimTemplate : ChiHost → VolumeMount → Option VolumeClaimTemplate)
    (host : ChiHost) (volumeMount : VolumeMount) : GoString × Bool :=
  match GetVolumeClaimTemplate host volumeMount with
  | none => ([], false)
  | some volumeClaimTemplate => (createPVCName m host volumeClaimTemplate.Name, true)

/-! ## namer.go: service FQDN and secret name -/

def CreateCHIServiceFQDN (m : MacrosEngine) (chi : ClickHouseInstallation) : GoString :=
  let pattern := serviceFQDNPattern
  let pattern :=
    if chi.NamespaceDomainPattern ≠ [] then str "%s." ++ chi.NamespaceDomainPattern
    else pattern
  Sprintf pattern [CreateCHIServiceName m chi, chi.Namespace]

def CreateClusterAutoSecretName (cluster : Cluster) : GoString :=
  if cluster.data.Name = [] then
    Sprintf (str "%s-auto-secret") [cluster.chi.Name]
  else
    Sprintf (str "%s-%s-auto-secret") [cluster.chi.Name, cluster.data.Name]

/-! ## normalizer/context.go -/

namespace normalizer

/-- Go `normalizer.Context`. The type of the options is not among the
sources and is a parameter; a pointer that may be nil is an `Option`. -/
structure Context (Options : Type) where
  chi : Option ClickHouseInstallation
  options : Option Options

/-- Go `NewContext`: a context with the options and no target. -/
def NewContext {Options : Type} (options : Option Options) : Option (Context Options) :=
  some { chi := none, options := options }

/-- Go `(c *Context) GetTarget`. -/
def GetTarget {Options : Type} (c : Option (Context Options)) : Option ClickHouseInstallation :=
  match c with
  | none => none
  | some c => c.chi

/-- Go `(c *Context) SetTarget`: the value returned and the context after
the call. -/
def SetTarget {Options : Type} (c : Option (Context Options))
    (chi : Option ClickHouseInstallation) :
    Option ClickHouseInstallation × Option (Context Options) :=
  match c with
  | none => (none, none)
  | some c =>
    let c := { c with chi := chi }
    (c.chi, some c)

/-- Go `(c *Context) Options`. -/
def Options {Opts : Type} (c : Option (Context Opts)) : Option Opts :=
  match c with
  | none => none
  | some c => c.options

end normalizer

/-! ## k8s/service.go -/

/-- Go `core.ServicePort`, of which `ServiceSpecVerifyPorts` reads the
port number (an `int32`). -/
structure ServicePort where
  Port : Int
deriving DecidableEq, Repr

/-- Go `core.ServiceSpec`, of which `ServiceSpecVerifyPorts` reads the
ports. -/
structure ServiceSpec where
  Ports : List ServicePort
deriving DecidableEq, Repr

/-- Go `fmt.Errorf` without `%w`: an error whose message is the formatted
text. An `error` is embedded as its message. -/
def Errorf (format : GoString) (args : List FmtArg) : GoString :=
  SprintfArgs format args

/-- The loop of `ServiceSpecVerifyPorts` over the ports that are left. -/
def ServiceSpecVerifyPorts.loop (IsPortInvalid : Int → Bool) :
    List ServicePort → Option GoString
  | [] => none
  | servicePort :: rest =>
    if IsPortInvalid servicePort.Port then
      some (Errorf (SprintfArgs (str "incorrect port :%d") [FmtArg.int servicePort.Port]) [])
    else
      ServiceSpecVerifyPorts.loop IsPortInvalid rest

/-- Go `ServiceSpecVerifyPorts`: `none` is the nil error. The test
`api.IsPortInvalid` is not among the sources and is a parameter. -/
def ServiceSpecVerifyPorts (IsPortInvalid : Int → Bool) (spec : ServiceSpec) :
    Option GoString :=
  ServiceSpecVerifyPorts.loop IsPortInvalid spec.Ports

/-! ## Go `strconv.ParseInt` -/

/-- The error of `strconv.ParseInt`: `ErrSyntax` or `ErrRange`. -/
inductive NumError where
  | ErrSyntax
  | ErrRange
deriving DecidableEq, Repr

/-- Go `maxUint64`, the largest `uint64`. -/
def maxUint64 : Nat := 2 ^ 64 - 1

/-- The loop of Go `strconv.ParseUint(s, 10, 64)` over the bytes that are
left, `n` being the number read so far. A byte that is not a decimal
digit is a syntax error and returns 0. A digit that would take the number
past `maxUint64` returns `maxUint64` with `ErrRange` at once, without
reading the bytes after it: `n >= cutoff` with `cutoff = maxUint64/10 + 1`
is the test for `n*10`, and the sum `n*10 + d` is tested after it. -/
def ParseUint.loop : Nat → List UInt8 → Nat × Option NumError
  | n, [] => (n, none)
  | n, c :: rest =>
    if 0x30 ≤ c ∧ c ≤ 0x39 then
      if n ≥ maxUint64 / 10 + 1 then (maxUint64, some NumError.ErrRange)
      else
        let n1 := n * 10 + (c.toNat - 0x30)
        if n1 > maxUint64 then (maxUint64, some NumError.ErrRange)
        else ParseUint.loop n1 rest
    else (0, some NumError.ErrSyntax)

/-- Go `strconv.ParseUint(s, 10, 64)` of the standard library: the empty
string is a syntax error, any other string is read byte by byte. -/
def ParseUint (s : GoString) : Nat × Option NumError :=
  if s = [] then (0, some NumError.ErrSyntax) else ParseUint.loop 0 s

/-- Go `strconv.ParseInt(s, 10, 64)` of the standard library: an optional
sign, then `ParseUint` on the rest. A syntax error returns 0; otherwise
the number of `ParseUint` (also the one it returns with `ErrRange`) is
tested against the range of `int64`, and a number outside it returns the
nearest bound with `ErrRange`. -/
def ParseInt (s : GoString) : Int × Option NumError :=
  match s with
  | [] => (0, some NumError.ErrSyntax)
  | c :: rest =>
    let neg : Bool := c = 0x2d
    let digits : GoString := if c = 0x2b ∨ c = 0x2d then rest else c :: rest
    let u := ParseUint digits
    if u.2 = some NumError.ErrSyntax then (0, some NumError.ErrSyntax)
    else if !neg ∧ u.1 ≥ 2 ^ 63 then ((2 : Int) ^ 63 - 1, some NumError.ErrRange)
    else if neg ∧ u.1 > 2 ^ 63 then (-(2 : Int) ^ 63, some NumError.ErrRange)
    else (if neg then -(u.1 : Int) else (u.1 : Int), none)

/-- Go `int64` arithmetic: the value of an integer after wrapping around
the range of `int64`. -/
def wrapInt64 (x : Int) : Int := (x + 2 ^ 63) % 2 ^ 64 - 2 ^ 63

/-! ## Go `strconv.ParseFloat` on the decimal text of an integer -/

/-- The number written by a run of decimal digits read after `acc`, `none`
when a byte is not a digit. -/
def decimalDigitsValue : Nat → List UInt8 → Option Nat
  | acc, [] => some acc
  | acc, c :: rest =>
    if 0x30 ≤ c ∧ c ≤ 0x39 then decimalDigitsValue (acc * 10 + (c.toNat - 0x30)) rest
    else none

/-- The number of low bits of `a` that do not fit the 53-bit significand
of a `float64`: 0 when `a < 2^53`, one more for every halving needed to
get below `2^53` (at most `fuel` of them). -/
def excessBits : Nat → Nat → Nat
  | 0, _ => 0
  | fuel + 1, a => if a < 2 ^ 53 then 0 else excessBits fuel (a / 2) + 1

/-- The `float64` nearest to an integer of magnitude below `2^64`, as the
integer it is equal to: the magnitude keeps its 53 leading bits, rounded
to nearest on the bits dropped, a tie going to the even significand
(IEEE 754 round-to-nearest-even). -/
def roundToFloat64 (n : Int) : Int :=
  let a := n.natAbs
  let e := excessBits 64 a
  let q := a / 2 ^ e
  let r := a % 2 ^ e
  let m := if 2 * r > 2 ^ e ∨ (2 * r = 2 ^ e ∧ q % 2 = 1) then q + 1 else q
  if n < 0 then -((m * 2 ^ e : Nat) : Int) else ((m * 2 ^ e : Nat) : Int)

/-- Go `strconv.ParseFloat(value, 64)` of the standard library, which
returns the nearest `float64`, on a text that is an optional sign and
decimal digits writing an integer of magnitude below `2^64`; `none` stands
for every other text, which is outside this model. -/
def parseFloatOfIntegerText (value : GoString) : Option Int :=
  match value with
  | [] => none
  | c :: rest =>
    let neg : Bool := c = 0x2d
    let digits : GoString := if c = 0x2b ∨ c = 0x2d then rest else c :: rest
    if digits = [] then none
    else
      match decimalDigitsValue 0 digits with
      | none => none
      | some a =>
        if a < 2 ^ 64 then some (roundToFloat64 (if neg then -(a : Int) else (a : Int)))
        else none

/-! ## metrics/prometheus_writer.go -/

/-- Go `prometheus.ValueType`, the two values used by the writer. -/
inductive ValueType where
  | CounterValue
  | GaugeValue
deriving DecidableEq, Repr

/-- A call of `writeSingleMetricToPrometheus`, with its arguments. -/
structure MetricCall where
  name : GoString
  desc : GoString
  metricType : ValueType
  value : GoString
  optionalLabels : List GoString
  optionalLabelValues : List GoString
deriving DecidableEq, Repr

/-- The value that `writeSingleMetricToPrometheus` gives to the metric it
builds: `floatValue, _ := strconv.ParseFloat(value, 64)`, on the texts
that `parseFloatOfIntegerText` models. -/
def MetricCall.floatValue (call : MetricCall) : Option Int :=
  parseFloatOfIntegerText call.value

/-- What a method of the writer does: the calls of
`writeSingleMetricToPrometheus` it makes, in order, and whether it stops
with a run-time panic (an index or a slice bound outside a row). -/
structure WriterRun where
  calls : List MetricCall
  panicked : Bool
deriving DecidableEq, Repr

/-- A `for _, metric := range data` loop of the writer: the body is run on
every row in order, until a row panics. -/
def forEachRow (body : List GoString → WriterRun) : List (List GoString) → WriterRun
  | [] => { calls := [], panicked := false }
  | metric :: rest =>
    let r := body metric
    if r.panicked then r
    else
      let r2 := forEachRow body rest
      { calls := r.calls ++ r2.calls, panicked := r2.panicked }

/-- The body of the loop of `WriteMetrics` for one row. -/
def WriteMetrics.row (metric : List GoString) : WriterRun :=
  if metric.length < 2 then
    { calls := [], panicked := false }
  else
    match metric[0]?, metric[1]?, metric[2]?, metric[3]? with
    | some name, some value, some desc, some kind =>
      let metricType :=
        if kind = str "counter" then ValueType.CounterValue else ValueType.GaugeValue
      { calls := [{ name := name, desc := desc, metricType := metricType, value := value,
                    optionalLabels := [], optionalLabelValues := [] }],
        panicked := false }
    | _, _, _, _ => { calls := [], panicked := true }

/-- Go `WriteMetrics`. -/
def WriteMetrics (data : List (List GoString)) : WriterRun :=
  forEachRow WriteMetrics.row data

/-- A run of statements `writeSingleMetricToPrometheus(name, desc,
GaugeValue, metric[i], labelNames, labelValues)`, given as the list of
(name, desc, i): each reads `metric[i]` and panics when the row has no
such field. -/
def writeGauges (metric labelNames labelValues : List GoString) :
    List (GoString × GoString × Nat) → WriterRun
  | [] => { calls := [], panicked := false }
  | (name, desc, i) :: rest =>
    match metric[i]? with
    | none => { calls := [], panicked := true }
    | some value =>
      let r := writeGauges metric labelNames labelValues rest
      { calls := { name := name, desc := desc, metricType := ValueType.GaugeValue,
                   value := value, optionalLabels := labelNames,
                   optionalLabelValues := labelValues } :: r.calls,
        panicked := r.panicked }

/-- The body of the loop of `WriteTableSizes` for one row. -/
def WriteTableSizes.row (metric : List GoString) : WriterRun :=
  if metric.length < 2 then
    { calls := [], panicked := false }
  else
    let labelNames := [str "database", str "table", str "active"]
    match metric[0]?, metric[1]?, metric[2]? with
    | some database, some table, some active =>
      let labelValues := [database, table, active]
      writeGauges metric labelNames labelValues
        [(str "table_partitions", str "Number of partitions of the table", 3),
         (str "table_parts", str "Number of parts of the table", 4),
         (str "table_parts_bytes", str "Table size in bytes", 5),
         (str "table_parts_bytes_uncompressed", str "Table size in bytes uncompressed", 6),
         (str "table_parts_rows", str "Number of rows in the table", 7)]
    | _, _, _ => { calls := [], panicked := true }

/-- Go `WriteTableSizes`. -/
def WriteTableSizes (data : List (List GoString)) : WriterRun :=
  forEachRow WriteTableSizes.row data

/-- The inner loop of `WriteSystemParts`, `for i, v := range
t[len(t)-len(m):]`, on the fields left, from index `i`: `m[i]` takes the
value returned by `ParseInt`, also when it returns an error. -/
def WriteSystemParts.parseInto : Nat → List GoString → List Int → List Int
  | _, [], m => m
  | i, v :: rest, m => WriteSystemParts.parseInto (i + 1) rest (m.set i (ParseInt v).1)

/-- The outer loop of `WriteSystemParts` on the rows left: the two sums
after the loop, `none` when the slice `t[len(t)-len(m):]` of a row panics
(a row with fewer than 2 fields). -/
def WriteSystemParts.sums : List (List GoString) → Int × Int → Option (Int × Int)
  | [], sums => some sums
  | t :: rest, (diskDataBytes, memoryPrimaryKeyBytesAllocated) =>
    if t.length < 2 then none
    else
      let m := WriteSystemParts.parseInto 0 (t.drop (t.length - 2)) [0, 0]
      WriteSystemParts.sums rest
        (wrapInt64 (diskDataBytes + m.getD 0 0),
         wrapInt64 (memoryPrimaryKeyBytesAllocated + m.getD 1 0))

/-- Go `WriteSystemParts`. -/
def WriteSystemParts (data : List (List GoString)) : WriterRun :=
  match WriteSystemParts.sums data (0, 0) with
  | none => { calls := [], panicked := true }
  | some (diskDataBytes, memoryPrimaryKeyBytesAllocated) =>
    WriteMetrics
      [[str "metric.DiskDataBytes", SprintfArgs (str "%d") [FmtArg.int diskDataBytes],
        str "Total data size for all ClickHouse tables", str "gauge"],
       [str "metric.MemoryPrimaryKeyBytesAllocated",
        SprintfArgs (str "%d") [FmtArg.int memoryPrimaryKeyBytesAllocated],
        str "Memory size allocated for primary keys", str "gauge"]]

/-! ## Sample data -/

/-- A macro engine for the examples: the tokens are written as in the
comments of `namer.go`, and `Line` returns the pattern as it is. -/
def sampleMacros : MacrosEngine :=
  { macrosChiName := str "{chi}"
    macrosClusterName := str "{cluster}"
    macrosShardName := str "{shard}"
    macrosReplicaName := str "{replica}"
    macrosHostName := str "{host}"
    Line := fun _ pattern => pattern }

/-- The address of host `hostName` of shard `shardName` in cluster
`main` of installation `demo` in namespace `prod`. -/
def sampleAddress (shardName hostName : String) : ChiHostAddress :=
  { Namespace := str "prod", CHIName := str "demo", ClusterName := str "main",
    ShardName := str shardName, ReplicaName := str "0", HostName := str hostName }

/-- A host of the sample installation, with a service template that names
its service after the host. -/
def sampleHostData (shardName hostName : String) : ChiHostData :=
  { Name := str hostName, Address := sampleAddress shardName hostName,
    ServiceTemplate := some { GenerateName := str hostName }, PodTemplate := none }

/-- A shard of the sample installation with the given hosts. -/
def sampleShardData (shardName : String) (hostNames : List String) : ChiShardData :=
  { Name := str shardName,
    Address := { Namespace := str "prod", CHIName := str "demo", ClusterName := str "main",
                 ShardName := str shardName },
    ServiceTemplate := none, Hosts := hostNames.map (sampleHostData shardName) }

/-- A cluster of the sample installation with the given schema policy and
shards. -/
def sampleClusterData (replica shard : String) (shards : List ChiShardData) : ClusterData :=
  { Name := str "main",
    Address := { Namespace := str "prod", CHIName := str "demo", ClusterName := str "main" },
    SchemaPolicy := { Replica := str replica, Shard := str shard },
    ServiceTemplate := none, Shards := shards }

/-- The sample installation with one cluster. -/
def sampleCHI (cluster : ClusterData) : ClickHouseInstallation :=
  { Namespace := str "prod", Name := str "demo", NamespaceDomainPattern := [],
    ReplicasUseFQDN := false, ServiceTemplate := none, Clusters := [cluster] }

/-- The host `hostName` of the sample installation, placed in the shard
`shardName` (whose hosts are `hostNames`) of the given cluster. -/
def sampleHost (cluster : ClusterData) (shardName : String) (hostNames : List String)
    (hostName : String) : ChiHost :=
  { chi := sampleCHI cluster, cluster := cluster,
    shard := sampleShardData shardName hostNames, data := sampleHostData shardName hostName }

/-- Two shards of one host each: `a` in shard `0`, `b` in shard `1`. -/
def sampleTwoShards : List ChiShardData :=
  [sampleShardData "0" ["a"], sampleShardData "1" ["b"]]

/-- One shard with the two hosts `a` and `b`. -/
def sampleOneShard : List ChiShardData :=
  [sampleShardData "0" ["a", "b"]]

/-- A schemer for the examples, over a remote side without state: the
database and the table query both answer with the object name `events`,
the function query with no object. -/
def sampleSchemer : ClusterSchemer Unit :=
  { QueryUnzip2Columns := fun st _ _ sql =>
      if sql = str "databases" then
        ({ names := [str "events"], sqls := [str "CREATE DATABASE events"], err := none }, st)
      else
        ({ names := [], sqls := [], err := none }, st)
    QueryUnzipAndApplyUUIDs := fun st _ _ _ =>
      ({ names := [str "events"], sqls := [str "CREATE TABLE events"], err := none }, st)
    sqlCreateDatabaseReplicated := fun _ => str "databases"
    sqlCreateTableReplicated := fun _ => str "tables"
    sqlCreateFunction := fun _ => str "functions" }

/-- Host `a` of a cluster with `Replica = None`, `Shard = All` and one
shard of two hosts. -/
def sampleHostReplicaNoneShardAll : ChiHost :=
  sampleHost (sampleClusterData "None" "All" sampleOneShard) "0" ["a", "b"] "a"

/-- Host `a` of a cluster with `Replica = None`, `Shard = None` and one
shard of two hosts. -/
def sampleHostReplicaNone : ChiHost :=
  sampleHost (sampleClusterData "None" "None" sampleOneShard) "0" ["a", "b"] "a"

/-- Host `a`, alone in its shard, of a cluster with `Replica = All`,
`Shard = All` and two shards of one host each. -/
def sampleHostAloneShardAll : ChiHost :=
  sampleHost (sampleClusterData "All" "All" sampleTwoShards) "0" ["a"] "a"

/-- Host `b`, alone in its shard, of a cluster with `Replica = All`,
`Shard = None` and two shards of one host each. -/
def sampleHostAlone : ChiHost :=
  sampleHost (sampleClusterData "All" "None" sampleTwoShards) "1" ["b"] "b"

/-- Host `b` of a cluster with `Replica = All`, `Shard = None` and one
shard of two hosts. -/
def sampleHostOfPair : ChiHost :=
  sampleHost (sampleClusterData "All" "None" sampleOneShard) "0" ["a", "b"] "b"

/-- A context that is not done. -/
def sampleLiveContext : Context := { done := false }

/-- A context that is already done. -/
def sampleDoneContext : Context := { done := true }

/-- A schemer for the examples whose table query fails: the database
query answers with the object `events`, the table query returns an error
and no object, the function query answers with no object. -/
def sampleFailingSchemer : ClusterSchemer Unit :=
  { QueryUnzip2Columns := fun st _ _ sql =>
      if sql = str "databases" then
        ({ names := [str "events"], sqls := [str "CREATE DATABASE events"], err := none }, st)
      else
        ({ names := [], sqls := [], err := none }, st)
    QueryUnzipAndApplyUUIDs := fun st _ _ _ =>
      ({ names := [], sqls := [], err := some (str "connection refused") }, st)
    sqlCreateDatabaseReplicated := fun _ => str "databases"
    sqlCreateTableReplicated := fun _ => str "tables"
    sqlCreateFunction := fun _ => str "functions" }

/-- The shard `shardName`, without hosts, of a sample cluster. -/
def sampleShardNamed (shardName : String) : ChiShard :=
  { chi := sampleCHI (sampleClusterData "All" "None" [sampleShardData shardName []]),
    cluster := sampleClusterData "All" "None" [sampleShardData shardName []],
    data := sampleShardData shardName [] }

/-- The replica `replicaName`. -/
def sampleReplicaNamed (replicaName : String) : ChiReplica := { Name := str replicaName }

/-- A template with the explicit pattern `custom-{host}`. -/
def sampleTemplate : NameTemplate := { GenerateName := str "custom-{host}" }

/-- Host `a` of the sample installation with `sampleTemplate` as its
service template and as its pod template, the installation having it as
its service template too. -/
def sampleHostWithTemplates : ChiHost :=
  { chi := { sampleCHI (sampleClusterData "All" "None" sampleOneShard) with
             ServiceTemplate := some sampleTemplate },
    cluster := sampleClusterData "All" "None" sampleOneShard,
    shard := sampleShardData "0" ["a", "b"],
    data := { sampleHostData "0" "a" with
              ServiceTemplate := some sampleTemplate, PodTemplate := some sampleTemplate } }

/-- Host `a` of the sample installation without templates, the
installation using FQDNs for its replicas. -/
def sampleHostUsingFQDN : ChiHost :=
  { chi := { sampleCHI (sampleClusterData "All" "None" sampleOneShard) with
             ReplicasUseFQDN := true },
    cluster := sampleClusterData "All" "None" sampleOneShard,
    shard := sampleShardData "0" ["a", "b"],
    data := { sampleHostData "0" "a" with ServiceTemplate := none } }

/-- A lookup of claim templates for the examples: the volume mount `data`
comes from the claim template `data-volume`, no other mount comes from a
claim template. -/
def sampleGetVolumeClaimTemplate (_host : ChiHost) (volumeMount : VolumeMount) :
    Option VolumeClaimTemplate :=
  if volumeMount.Name = str "data" then some { Name := str "data-volume" } else none

/-- The installation `chiName` with the domain pattern `domainPattern`
and no cluster. -/
def sampleCHINamed (chiName domainPattern : String) : ClickHouseInstallation :=
  { Namespace := str "prod", Name := str chiName, NamespaceDomainPattern := str domainPattern,
    ReplicasUseFQDN := false, ServiceTemplate := none, Clusters := [] }

/-- The cluster `clusterName`, without shards, of the installation
`chiName`. -/
def sampleClusterNamed (chiName clusterName : String) : Cluster :=
  { chi := sampleCHINamed chiName "",
    data := { Name := str clusterName,
              Address := { Namespace := str "prod", CHIName := str chiName,
                           ClusterName := str clusterName },
              SchemaPolicy := { Replica := str "All", Shard := str "None" },
              ServiceTemplate := none, Shards := [] } }

/-- Host `a` of the sample installation, the installation having the
domain pattern `domainPattern`. -/
def sampleHostWithDomain (domainPattern : String) : ChiHost :=
  { chi := { sampleCHI (sampleClusterData "All" "None" sampleOneShard) with
             NamespaceDomainPattern := str domainPattern },
    cluster := sampleClusterData "All" "None" sampleOneShard,
    shard := sampleShardData "0" ["a", "b"],
    data := sampleHostData "0" "a" }

/-- A test of ports for the examples: a port is invalid when it is not
between 1 and 65535. -/
def sampleIsPortInvalid (port : Int) : Bool := decide (port < 1 ∨ 65535 < port)

/-- A service spec with the ports 8123, 0, 9000 and 70000. -/
def sampleServiceSpec : ServiceSpec :=
  { Ports := [{ Port := 8123 }, { Port := 0 }, { Port := 9000 }, { Port := 70000 }] }

/-- A row of the shape documented for `WriteTableSizes`: database, table,
partitions, parts, bytes, uncompressed_bytes, rows. -/
def sampleTableSizesRow : List GoString :=
  [str "default", str "events", str "12", str "340", str "1048576", str "4194304", str "90000"]

/-! ## The sums of `WriteSystemParts`, in the words of the spec -/

/-- A sum in `int64` arithmetic: the values are added one by one to `acc`,
each addition wrapping around the range of `int64`. -/
def int64Sum (acc : Int) (values : List Int) : Int :=
  values.foldl (fun a x => wrapInt64 (a + x)) acc

/-- The second-to-last column of a row, read by `ParseInt`. -/
def secondToLastValue (t : List GoString) : Int :=
  (ParseInt (t.getD (t.length - 2) [])).1

/-- The last column of a row, read by `ParseInt`. -/
def lastValue (t : List GoString) : Int :=
  (ParseInt (t.getD (t.length - 1) [])).1

/-- The metric that `WriteSystemParts` publishes under `name`: a gauge
without optional labels, whose value is the integer in decimal. -/
def systemPartsMetric (name desc : String) (value : Int) : MetricCall :=
  { name := str name, desc := str desc, metricType := ValueType.GaugeValue,
    value := Itoa value, optionalLabels := [], optionalLabelValues := [] }

/-! ## The metric of a row of `WriteMetrics`, in the words of the claim -/

/-- The metric published for a row `metric, value, description, type`: the
name, the value and the description are the first three fields, and the
type is a counter when the fourth field is `counter`, a gauge for any
other value; there are no optional labels. -/
def metricOfRow (row : List GoString) : MetricCall :=
  { name := row.getD 0 [], desc := row.getD 2 [],
    metricType :=
      if row.getD 3 [] = str "counter" then ValueType.CounterValue else ValueType.GaugeValue,
    value := row.getD 1 [], optionalLabels := [], optionalLabelValues := [] }

/-! ## The choice of a pattern, in the words of the spec -/

/-- The rule of the spec for a generated name: `name` is the expansion of
the explicit pattern of the template when the entity has a template whose
`GenerateName` is not empty, and the expansion of the built-in default
pattern otherwise (no template, or a template with an empty
`GenerateName`). -/
def ExpandsOverrideOrDefault (template : Option NameTemplate) (default : GoString)
    (expand : GoString → GoString) (name : GoString) : Prop :=
  (∀ t, template = some t → t.GenerateName ≠ [] → name = expand t.GenerateName)
  ∧ (∀ t, template = some t → t.GenerateName = [] → name = expand default)
  ∧ (template = none → name = expand default)

/-! ## Lemmas on trimming and truncation -/

theorem trimRightASCII_length_le (s cutset : GoString) :
    (trimRightASCII s cutset).length ≤ s.length := by
  unfold trimRightASCII List.rdropWhile
  rw [List.length_reverse]
  exact ((List.dropWhile_sublist _).length_le).trans (by simp)

theorem trimLeftASCII_length_le (s cutset : GoString) :
    (trimLeftASCII s cutset).length ≤ s.length :=
  (List.dropWhile_sublist _).length_le

theorem Trim_length_le (s cutset : GoString) : (Trim s cutset).length ≤ s.length := by
  unfold Trim
  split
  · exact le_rfl
  · exact (trimLeftASCII_length_le _ _).trans (trimRightASCII_length_le _ _)

theorem sanitize_length_le (s : GoString) : (sanitize s).length ≤ s.length :=
  Trim_length_le s sanitizeCutset

theorem StringHead_length_le (s : GoString) (n : Nat) : (StringHead s n).length ≤ n := by
  unfold StringHead
  split
  · assumption
  · simp

theorem sanitize_StringHead_length_le (s : GoString) (n : Nat) :
    (sanitize (StringHead s n)).length ≤ n :=
  (sanitize_length_le _).trans (StringHead_length_le s n)

/-- The last byte of a suffix left by `dropWhile` is the last byte of the list. -/
theorem getLast?_dropWhile_of_ne_nil {α : Type} (p : α → Bool) :
    ∀ l : List α, l.dropWhile p ≠ [] → (l.dropWhile p).getLast? = l.getLast?
  | [], h => by simp at h
  | a :: l, h => by
    by_cases hp : p a = true
    · have hd : (a :: l).dropWhile p = l.dropWhile p := by simp [List.dropWhile, hp]
      rw [hd] at h ⊢
      rw [getLast?_dropWhile_of_ne_nil p l h]
      cases l with
      | nil => simp at h
      | cons b l => simp [List.getLast?_cons_cons]
    · have hd : (a :: l).dropWhile p = a :: l := by simp [List.dropWhile, hp]
      rw [hd]

theorem trimRightASCII_not_ends (s cutset : GoString) (b : UInt8) (hb : b ∈ cutset) :
    (trimRightASCII s cutset).getLast? ≠ some b := by
  intro h
  have hne : trimRightASCII s cutset ≠ [] := by
    intro h0
    rw [h0] at h
    simp at h
  have hlast := List.rdropWhile_last_not (fun b => decide (b ∈ cutset)) s hne
  rw [List.getLast?_eq_getLast _ hne] at h
  have hEq : (trimRightASCII s cutset).getLast hne = b := Option.some.inj h
  unfold trimRightASCII at hEq
  rw [hEq] at hlast
  simp [hb] at hlast

theorem Trim_not_ends (s cutset : GoString) (b : UInt8) (hb : b ∈ cutset) :
    (Trim s cutset).getLast? ≠ some b := by
  unfold Trim
  split
  · rename_i h
    rcases h with h | h
    · subst h
      simp
    · subst h
      simp at hb
  · intro h
    have hne : trimLeftASCII (trimRightASCII s cutset) cutset ≠ [] := by
      intro h0
      rw [h0] at h
      simp at h
    unfold trimLeftASCII at h hne
    rw [getLast?_dropWhile_of_ne_nil _ _ hne] at h
    exact trimRightASCII_not_ends s cutset b hb h

theorem sanitize_not_endsInCutset (s : GoString) : ¬ endsInCutset (sanitize s) := by
  rintro ⟨b, hb, h⟩
  exact Trim_not_ends s sanitizeCutset b hb h

/-! ## Properties of the name parts -/

/-- C1: for every naming context and every input string, each of the six
name-part functions returns a string of at most the budget of its part in
that context (the installation budget for the namespace and installation
parts, the replica budget for the replica and host parts); inputs longer
than the budget are included. -/
theorem namePart_length_le_budget (n : namer) (name : GoString) :
    (n.namePartNamespace name).length ≤ n.lenCHI ∧
    (n.namePartChiName name).length ≤ n.lenCHI ∧
    (n.namePartClusterName name).length ≤ n.lenCluster ∧
    (n.namePartShardName name).length ≤ n.lenShard ∧
    (n.namePartReplicaName name).length ≤ n.lenReplica ∧
    (n.namePartHostName name).length ≤ n.lenReplica :=
  ⟨sanitize_StringHead_length_le _ _, sanitize_StringHead_length_le _ _,
   sanitize_StringHead_length_le _ _, sanitize_StringHead_length_le _ _,
   sanitize_StringHead_length_le _ _, sanitize_StringHead_length_le _ _⟩

/-- C2: for every string the result of `sanitize` does not end in `-`, `_`
or `.`, and so the result of each of the six name-part functions (which
apply `sanitize` after the truncation) does not end in one of them either,
whatever the truncation cut. -/
theorem sanitize_never_ends_in_cutset (n : namer) (s : GoString) :
    ¬ endsInCutset (sanitize s) ∧
    ¬ endsInCutset (n.namePartNamespace s) ∧
    ¬ endsInCutset (n.namePartChiName s) ∧
    ¬ endsInCutset (n.namePartClusterName s) ∧
    ¬ endsInCutset (n.namePartShardName s) ∧
    ¬ endsInCutset (n.namePartReplicaName s) ∧
    ¬ endsInCutset (n.namePartHostName s) :=
  ⟨sanitize_not_endsInCutset _, sanitize_not_endsInCutset _, sanitize_not_endsInCutset _,
   sanitize_not_endsInCutset _, sanitize_not_endsInCutset _, sanitize_not_endsInCutset _,
   sanitize_not_endsInCutset _⟩

/-- C3: the budgets selected by the naming context: in the names context 60
for the installation part and 15 for the cluster, shard and replica parts;
in the labels context 63 for all four. -/
theorem namePart_budgets :
    (newNamer namerContextNames).lenCHI = 60 ∧
    (newNamer namerContextNames).lenCluster = 15 ∧
    (newNamer namerContextNames).lenShard = 15 ∧
    (newNamer namerContextNames).lenReplica = 15 ∧
    (newNamer namerContextLabels).lenCHI = 63 ∧
    (newNamer namerContextLabels).lenCluster = 63 ∧
    (newNamer namerContextLabels).lenShard = 63 ∧
    (newNamer namerContextLabels).lenReplica = 63 := by
  decide

/-- An example of `sanitize`: both ends are trimmed, inner bytes are kept. -/
theorem sanitize_example : sanitize (str "-_ab-.c._-") = str "ab-.c" := by
  decide

/-- An example of a name part in the names context: the cluster budget of
15 cuts `analytics-east-1` right after a `-`, which `sanitize` then
removes. -/
theorem namePartClusterName_example :
    (newNamer namerContextNames).namePartClusterName (str "analytics-east-1")
      = str "analytics-east" := by
  decide

/-! ## Lemmas on FQDN lists -/

theorem Sprintf_s_dot (rest a : GoString) (args : List GoString) :
    Sprintf (0x25 :: 0x73 :: 0x2e :: rest) (a :: args) = a ++ 0x2e :: Sprintf rest args := by
  rw [Sprintf]
  simp only [Sprintf]
  simp

theorem createPodFQDN_ne_nil (m : MacrosEngine) (host : ChiHost) : createPodFQDN m host ≠ [] := by
  have h1 : str "%s." = [0x25, 0x73, 0x2e] := by decide
  have h2 : podFQDNPattern = 0x25 :: 0x73 :: 0x2e :: namespaceDomainPattern := by decide
  unfold createPodFQDN
  simp only []
  split
  · rw [h1]
    simp only [List.cons_append, List.nil_append]
    rw [Sprintf_s_dot]
    simp
  · rw [h2, Sprintf_s_dot]
    simp

theorem RemoveFromArray_nil_of_forall_ne (l : List GoString) (h : ∀ x ∈ l, x ≠ []) :
    RemoveFromArray [] l = l := by
  unfold RemoveFromArray
  rw [List.filter_eq_self]
  intro x hx
  simpa using h x hx

theorem RemoveFromArray_nil_map_createPodFQDN (m : MacrosEngine) (hosts : List ChiHost) :
    RemoveFromArray [] (hosts.map (createPodFQDN m)) = hosts.map (createPodFQDN m) := by
  apply RemoveFromArray_nil_of_forall_ne
  intro x hx
  rcases List.mem_map.mp hx with ⟨h, _, rfl⟩
  exact createPodFQDN_ne_nil m h

theorem CreateFQDNs_host_shard_false (m : MacrosEngine) (host : ChiHost) :
    CreateFQDNs m (Obj.host host) Scope.shard false
      = host.GetShard.WalkHosts.map (createPodFQDN m) := by
  simp only [CreateFQDNs, createPodFQDNsOfShard]
  exact RemoveFromArray_nil_map_createPodFQDN m _

theorem CreateFQDNs_host_cluster_false (m : MacrosEngine) (host : ChiHost) :
    CreateFQDNs m (Obj.host host) Scope.cluster false
      = host.GetCluster.WalkHosts.map (createPodFQDN m) := by
  simp only [CreateFQDNs, createPodFQDNsOfCluster]
  exact RemoveFromArray_nil_map_createPodFQDN m _

theorem CreateFQDNs_host_chi_false (m : MacrosEngine) (host : ChiHost) :
    CreateFQDNs m (Obj.host host) Scope.chi false
      = host.GetCHI.WalkHosts.map (createPodFQDN m) := by
  simp only [CreateFQDNs, createPodFQDNsOfCHI]
  exact RemoveFromArray_nil_map_createPodFQDN m _

/-- The decision of `shouldCreateReplicatedObjects` in terms of the number
of hosts walked in the cluster and in the shard of the host. -/
theorem shouldCreateReplicatedObjects_eq (m : MacrosEngine) (host : ChiHost) :
    shouldCreateReplicatedObjects m host =
      if host.GetCluster.data.SchemaPolicy.Shard = SchemaPolicyShardAll
          ∧ 2 ≤ host.GetCluster.WalkHosts.length then true
      else if host.GetCluster.data.SchemaPolicy.Replica = SchemaPolicyReplicaNone then false
      else if host.GetShard.WalkHosts.length ≤ 1 then false
      else true := by
  unfold shouldCreateReplicatedObjects
  simp only [CreateFQDNs_host_shard_false, CreateFQDNs_host_cluster_false, List.length_map]
  by_cases h1 : host.GetCluster.data.SchemaPolicy.Shard = SchemaPolicyShardAll
  · by_cases h2 : 2 ≤ host.GetCluster.WalkHosts.length
    · simp [h1, h2]
    · simp [h1, h2]
  · simp [h1]

/-! ## Properties of the replication decision -/

/-- C4: `shouldCreateReplicatedObjects` returns true exactly when the
schema policy of the cluster has `Shard = All` and the cluster of the host
has at least 2 hosts, or the policy has `Replica` different from `None`
and the shard of the host has at least 2 hosts. -/
theorem shouldCreateReplicatedObjects_iff (m : MacrosEngine) (host : ChiHost) :
    shouldCreateReplicatedObjects m host = true ↔
      (host.GetCluster.data.SchemaPolicy.Shard = SchemaPolicyShardAll
          ∧ 2 ≤ host.GetCluster.WalkHosts.length)
      ∨ (host.GetCluster.data.SchemaPolicy.Replica ≠ SchemaPolicyReplicaNone
          ∧ 2 ≤ host.GetShard.WalkHosts.length) := by
  rw [shouldCreateReplicatedObjects_eq]
  by_cases h1 : host.GetCluster.data.SchemaPolicy.Shard = SchemaPolicyShardAll
      ∧ 2 ≤ host.GetCluster.WalkHosts.length
  · simp [h1]
  · by_cases h2 : host.GetCluster.data.SchemaPolicy.Replica = SchemaPolicyReplicaNone
    · simp [h1, h2]
    · by_cases h3 : host.GetShard.WalkHosts.length ≤ 1
      · have h4 : ¬ 2 ≤ host.GetShard.WalkHosts.length := by omega
        simp [h1, h2, h3, h4]
      · have h4 : 2 ≤ host.GetShard.WalkHosts.length := by omega
        simp [h1, h2, h3, h4]

/-- C5, counterexample: with `Replica = None`, `Shard = All` and a cluster
of two hosts the decision is true. -/
theorem replicaNone_counterexample :
    sampleHostReplicaNoneShardAll.GetCluster.data.SchemaPolicy.Replica = SchemaPolicyReplicaNone
    ∧ shouldCreateReplicatedObjects sampleMacros sampleHostReplicaNoneShardAll = true := by
  decide

/-- C5, amended: for every host whose cluster has `Replica = None`,
`shouldCreateReplicatedObjects` returns true when `Shard = All` and the
cluster of the host has at least 2 hosts, and false in every other case. -/
theorem shouldCreateReplicatedObjects_replicaNone (m : MacrosEngine) (host : ChiHost)
    (h : host.GetCluster.data.SchemaPolicy.Replica = SchemaPolicyReplicaNone) :
    shouldCreateReplicatedObjects m host =
      decide (host.GetCluster.data.SchemaPolicy.Shard = SchemaPolicyShardAll
        ∧ 2 ≤ host.GetCluster.WalkHosts.length) := by
  rw [shouldCreateReplicatedObjects_eq]
  by_cases h1 : host.GetCluster.data.SchemaPolicy.Shard = SchemaPolicyShardAll
      ∧ 2 ≤ host.GetCluster.WalkHosts.length
  · simp [h1]
  · simp [h1, h]

theorem shouldCreateReplicatedObjects_replicaNone_witness :
    sampleHostReplicaNone.GetCluster.data.SchemaPolicy.Replica = SchemaPolicyReplicaNone
    ∧ shouldCreateReplicatedObjects sampleMacros sampleHostReplicaNone =
      decide (sampleHostReplicaNone.GetCluster.data.SchemaPolicy.Shard = SchemaPolicyShardAll
        ∧ 2 ≤ sampleHostReplicaNone.GetCluster.WalkHosts.length) :=
  ⟨by decide,
   shouldCreateReplicatedObjects_replicaNone sampleMacros sampleHostReplicaNone (by decide)⟩

/-- C6, counterexample: a host alone in its shard, with `Replica` different
from `None`, `Shard = All` and a cluster of two hosts: the decision is
true. -/
theorem singleHostShard_counterexample :
    sampleHostAloneShardAll.GetShard.WalkHosts.length = 1
    ∧ sampleHostAloneShardAll.GetCluster.data.SchemaPolicy.Replica ≠ SchemaPolicyReplicaNone
    ∧ shouldCreateReplicatedObjects sampleMacros sampleHostAloneShardAll = true := by
  decide

/-- C6, amended: for every host whose shard has exactly one host and whose
cluster has `Replica` different from `None`,
`shouldCreateReplicatedObjects` returns true when `Shard = All` and the
cluster of the host has at least 2 hosts, and false in every other case. -/
theorem shouldCreateReplicatedObjects_singleHostShard (m : MacrosEngine) (host : ChiHost)
    (hshard : host.GetShard.WalkHosts.length = 1)
    (_hreplica : host.GetCluster.data.SchemaPolicy.Replica ≠ SchemaPolicyReplicaNone) :
    shouldCreateReplicatedObjects m host =
      decide (host.GetCluster.data.SchemaPolicy.Shard = SchemaPolicyShardAll
        ∧ 2 ≤ host.GetCluster.WalkHosts.length) := by
  rw [shouldCreateReplicatedObjects_eq]
  by_cases h1 : host.GetCluster.data.SchemaPolicy.Shard = SchemaPolicyShardAll
      ∧ 2 ≤ host.GetCluster.WalkHosts.length
  · simp [h1]
  · simp [h1, hshard]

theorem shouldCreateReplicatedObjects_singleHostShard_witness :
    sampleHostAlone.GetShard.WalkHosts.length = 1
    ∧ sampleHostAlone.GetCluster.data.SchemaPolicy.Replica ≠ SchemaPolicyReplicaNone
    ∧ shouldCreateReplicatedObjects sampleMacros sampleHostAlone = false :=
  ⟨by decide, by decide,
   (shouldCreateReplicatedObjects_singleHostShard sampleMacros sampleHostAlone
      (by decide) (by decide)).trans (by decide)⟩

/-- A host listed in its shard is among the hosts walked in that shard. -/
theorem mem_WalkHosts_shard (host : ChiHost) (hs : host.data ∈ host.shard.Hosts) :
    host ∈ host.GetShard.WalkHosts :=
  List.mem_map.mpr ⟨host.data, hs, rfl⟩

/-- A host listed in its shard, the shard being listed in its cluster, is
among the hosts walked in that cluster. -/
theorem mem_WalkHosts_cluster (host : ChiHost) (hs : host.data ∈ host.shard.Hosts)
    (hc : host.shard ∈ host.cluster.Shards) : host ∈ host.GetCluster.WalkHosts := by
  unfold Cluster.WalkHosts
  rw [List.mem_flatMap]
  exact ⟨host.shard, hc, mem_WalkHosts_shard host hs⟩

/-- C7, counterexample: the shard-scope and the cluster-scope host sets
computed for host `b` of a shard of two hosts both contain the FQDN of
`b` itself. -/
theorem peerSets_counterexample :
    createPodFQDN sampleMacros sampleHostOfPair
      ∈ CreateFQDNs sampleMacros (Obj.host sampleHostOfPair) Scope.shard false
    ∧ createPodFQDN sampleMacros sampleHostOfPair
      ∈ CreateFQDNs sampleMacros (Obj.host sampleHostOfPair) Scope.cluster false := by
  decide

/-- C7, amended: the shard-scope and cluster-scope host sets that
`shouldCreateReplicatedObjects` computes are taken with `excludeSelf =
false`: they are the pod FQDNs of all the hosts of the shard and of the
cluster of the host, and for a host that is listed in its shard, the
shard being listed in its cluster, they both contain the FQDN of the host
itself. -/
theorem peerSets_include_self (m : MacrosEngine) (host : ChiHost)
    (hs : host.data ∈ host.shard.Hosts) (hc : host.shard ∈ host.cluster.Shards) :
    CreateFQDNs m (Obj.host host) Scope.shard false
        = host.GetShard.WalkHosts.map (createPodFQDN m)
    ∧ CreateFQDNs m (Obj.host host) Scope.cluster false
        = host.GetCluster.WalkHosts.map (createPodFQDN m)
    ∧ createPodFQDN m host ∈ CreateFQDNs m (Obj.host host) Scope.shard false
    ∧ createPodFQDN m host ∈ CreateFQDNs m (Obj.host host) Scope.cluster false := by
  refine ⟨CreateFQDNs_host_shard_false m host, CreateFQDNs_host_cluster_false m host, ?_, ?_⟩
  · rw [CreateFQDNs_host_shard_false]
    exact List.mem_map_of_mem _ (mem_WalkHosts_shard host hs)
  · rw [CreateFQDNs_host_cluster_false]
    exact List.mem_map_of_mem _ (mem_WalkHosts_cluster host hs hc)

theorem peerSets_include_self_witness :
    sampleHostAlone.data ∈ sampleHostAlone.shard.Hosts
    ∧ sampleHostAlone.shard ∈ sampleHostAlone.cluster.Shards
    ∧ createPodFQDN sampleMacros sampleHostAlone
        ∈ CreateFQDNs sampleMacros (Obj.host sampleHostAlone) Scope.shard false
    ∧ createPodFQDN sampleMacros sampleHostAlone
        ∈ CreateFQDNs sampleMacros (Obj.host sampleHostAlone) Scope.cluster false :=
  ⟨by decide, by decide,
   (peerSets_include_self sampleMacros sampleHostAlone (by decide) (by decide)).2.2⟩

/-! ## Properties of the plan of `getReplicatedObjectsSQLs` -/

/-- When the context is not done and replication is warranted, the plan is
built from the three passes. -/
theorem getReplicatedObjectsSQLs_of_live {σ : Type} (m : MacrosEngine) (s : ClusterSchemer σ)
    (remote : σ) (ctx : Context) (host : ChiHost) (hctx : IsContextDone ctx = false)
    (hrep : shouldCreateReplicatedObjects m host = true) :
    (getReplicatedObjectsSQLs m s remote ctx host).names
        = (databasePass m s remote ctx host).1.names ++ (tablePass m s remote ctx host).1.names
          ++ (functionPass m s remote ctx host).1.names
    ∧ (getReplicatedObjectsSQLs m s remote ctx host).sqls
        = (databasePass m s remote ctx host).1.sqls ++ (tablePass m s remote ctx host).1.sqls
          ++ (functionPass m s remote ctx host).1.sqls := by
  simp [getReplicatedObjectsSQLs, hctx, hrep, databasePass, tablePass, functionPass,
    debugCreateSQLs, ConcatSlices]

/-- C8: when the context passed to `getReplicatedObjectsSQLs` is already
done, it returns an empty name list, an empty statement list and no error,
and it issues no remote query: the list of calls is empty and the remote
state is the one it started from. -/
theorem getReplicatedObjectsSQLs_of_done {σ : Type} (m : MacrosEngine) (s : ClusterSchemer σ)
    (remote : σ) (ctx : Context) (host : ChiHost) (hctx : IsContextDone ctx = true) :
    (getReplicatedObjectsSQLs m s remote ctx host).names = []
    ∧ (getReplicatedObjectsSQLs m s remote ctx host).sqls = []
    ∧ (getReplicatedObjectsSQLs m s remote ctx host).err = none
    ∧ (getReplicatedObjectsSQLs m s remote ctx host).calls = []
    ∧ (getReplicatedObjectsSQLs m s remote ctx host).remote = remote := by
  simp [getReplicatedObjectsSQLs, hctx]

theorem getReplicatedObjectsSQLs_of_done_witness :
    IsContextDone sampleDoneContext = true
    ∧ shouldCreateReplicatedObjects sampleMacros sampleHostOfPair = true
    ∧ (getReplicatedObjectsSQLs sampleMacros sampleSchemer () sampleDoneContext
        sampleHostOfPair).names = []
    ∧ (getReplicatedObjectsSQLs sampleMacros sampleSchemer () sampleDoneContext
        sampleHostOfPair).calls = [] :=
  ⟨by decide, by decide,
   (getReplicatedObjectsSQLs_of_done sampleMacros sampleSchemer () sampleDoneContext
      sampleHostOfPair (by decide)).1,
   (getReplicatedObjectsSQLs_of_done sampleMacros sampleSchemer () sampleDoneContext
      sampleHostOfPair (by decide)).2.2.2.1⟩

/-- C9, counterexample: the database pass and the table pass both return
the name `events`; the returned plan lists `events` twice, the second time
with the statement of the table pass. -/
theorem dedup_counterexample :
    (databasePass sampleMacros sampleSchemer () sampleLiveContext sampleHostOfPair).1.names
        = [str "events"]
    ∧ (tablePass sampleMacros sampleSchemer () sampleLiveContext sampleHostOfPair).1.names
        = [str "events"]
    ∧ (getReplicatedObjectsSQLs sampleMacros sampleSchemer () sampleLiveContext
        sampleHostOfPair).names = [str "events", str "events"]
    ∧ (getReplicatedObjectsSQLs sampleMacros sampleSchemer () sampleLiveContext
        sampleHostOfPair).sqls = [str "CREATE DATABASE events", str "CREATE TABLE events"]
    ∧ ¬ (getReplicatedObjectsSQLs sampleMacros sampleSchemer () sampleLiveContext
        sampleHostOfPair).names.Nodup := by
  decide

/-- C9, amended: the plan returned by `getReplicatedObjectsSQLs` is the
whole concatenated sequence and is not deduplicated: every name occurs in
the returned name list as many times as the three passes returned it in
total, and, when the database and table passes return as many statements
as names, the (name, statement) pairs of the plan are those of the
database pass, then those of the table pass, then those of the function
pass, each name with the statement of its own occurrence. -/
theorem getReplicatedObjectsSQLs_keeps_every_occurrence {σ : Type} (m : MacrosEngine)
    (s : ClusterSchemer σ) (remote : σ) (ctx : Context) (host : ChiHost)
    (hctx : IsContextDone ctx = false) (hrep : shouldCreateReplicatedObjects m host = true) :
    (∀ x : GoString,
      (getReplicatedObjectsSQLs m s remote ctx host).names.count x
        = (databasePass m s remote ctx host).1.names.count x
          + (tablePass m s remote ctx host).1.names.count x
          + (functionPass m s remote ctx host).1.names.count x)
    ∧ ((databasePass m s remote ctx host).1.names.length
          = (databasePass m s remote ctx host).1.sqls.length →
        (tablePass m s remote ctx host).1.names.length
          = (tablePass m s remote ctx host).1.sqls.length →
        (getReplicatedObjectsSQLs m s remote ctx host).names.zip
            (getReplicatedObjectsSQLs m s remote ctx host).sqls
          = (databasePass m s remote ctx host).1.names.zip
              (databasePass m s remote ctx host).1.sqls
            ++ (tablePass m s remote ctx host).1.names.zip
              (tablePass m s remote ctx host).1.sqls
            ++ (functionPass m s remote ctx host).1.names.zip
              (functionPass m s remote ctx host).1.sqls) := by
  obtain ⟨hn, hq⟩ := getReplicatedObjectsSQLs_of_live m s remote ctx host hctx hrep
  refine ⟨fun x => ?_, fun h1 h2 => ?_⟩
  · rw [hn, List.count_append, List.count_append]
  · rw [hn, hq, List.zip_append, List.zip_append h1]
    rw [List.length_append, List.length_append, h1, h2]

theorem getReplicatedObjectsSQLs_keeps_every_occurrence_witness :
    IsContextDone sampleLiveContext = false
    ∧ shouldCreateReplicatedObjects sampleMacros sampleHostReplicaNoneShardAll = true
    ∧ (getReplicatedObjectsSQLs sampleMacros sampleSchemer () sampleLiveContext
        sampleHostReplicaNoneShardAll).names.count (str "events") = 1 + 1 + 0
    ∧ (getReplicatedObjectsSQLs sampleMacros sampleSchemer () sampleLiveContext
        sampleHostReplicaNoneShardAll).names.zip
        (getReplicatedObjectsSQLs sampleMacros sampleSchemer () sampleLiveContext
          sampleHostReplicaNoneShardAll).sqls
      = [(str "events", str "CREATE DATABASE events"), (str "events", str "CREATE TABLE events")] :=
  ⟨by decide, by decide,
   ((getReplicatedObjectsSQLs_keeps_every_occurrence sampleMacros sampleSchemer ()
      sampleLiveContext sampleHostReplicaNoneShardAll (by decide) (by decide)).1
      (str "events")).trans (by decide),
   ((getReplicatedObjectsSQLs_keeps_every_occurrence sampleMacros sampleSchemer ()
      sampleLiveContext sampleHostReplicaNoneShardAll (by decide) (by decide)).2
      (by decide) (by decide)).trans (by decide)⟩

/-- C10: when replication is warranted and the context is not done, the
returned name list is the names of the database pass, then those of the
table pass, then those of the function pass, and the returned statement
list is the statements of the three passes in the same order; when each
pass returns as many statements as names, the two returned lists have the
same length and are index-aligned: at every position both hold the entry
of the same pass at the same position within that pass. -/
theorem getReplicatedObjectsSQLs_concat_in_order {σ : Type} (m : MacrosEngine)
    (s : ClusterSchemer σ) (remote : σ) (ctx : Context) (host : ChiHost)
    (hctx : IsContextDone ctx = false) (hrep : shouldCreateReplicatedObjects m host = true) :
    (getReplicatedObjectsSQLs m s remote ctx host).names
        = (databasePass m s remote ctx host).1.names ++ (tablePass m s remote ctx host).1.names
          ++ (functionPass m s remote ctx host).1.names
    ∧ (getReplicatedObjectsSQLs m s remote ctx host).sqls
        = (databasePass m s remote ctx host).1.sqls ++ (tablePass m s remote ctx host).1.sqls
          ++ (functionPass m s remote ctx host).1.sqls
    ∧ ((databasePass m s remote ctx host).1.names.length
          = (databasePass m s remote ctx host).1.sqls.length →
        (tablePass m s remote ctx host).1.names.length
          = (tablePass m s remote ctx host).1.sqls.length →
        (functionPass m s remote ctx host).1.names.length
          = (functionPass m s remote ctx host).1.sqls.length →
        (getReplicatedObjectsSQLs m s remote ctx host).names.length
          = (getReplicatedObjectsSQLs m s remote ctx host).sqls.length
        ∧ (∀ i, i < (databasePass m s remote ctx host).1.names.length →
            (getReplicatedObjectsSQLs m s remote ctx host).names[i]?
              = (databasePass m s remote ctx host).1.names[i]?
            ∧ (getReplicatedObjectsSQLs m s remote ctx host).sqls[i]?
              = (databasePass m s remote ctx host).1.sqls[i]?)
        ∧ (∀ i, i < (tablePass m s remote ctx host).1.names.length →
            (getReplicatedObjectsSQLs m s remote ctx host).names[
                (databasePass m s remote ctx host).1.names.length + i]?
              = (tablePass m s remote ctx host).1.names[i]?
            ∧ (getReplicatedObjectsSQLs m s remote ctx host).sqls[
                (databasePass m s remote ctx host).1.names.length + i]?
              = (tablePass m s remote ctx host).1.sqls[i]?)
        ∧ (∀ i, i < (functionPass m s remote ctx host).1.names.length →
            (getReplicatedObjectsSQLs m s remote ctx host).names[
                (databasePass m s remote ctx host).1.names.length
                  + (tablePass m s remote ctx host).1.names.length + i]?
              = (functionPass m s remote ctx host).1.names[i]?
            ∧ (getReplicatedObjectsSQLs m s remote ctx host).sqls[
                (databasePass m s remote ctx host).1.names.length
                  + (tablePass m s remote ctx host).1.names.length + i]?
              = (functionPass m s remote ctx host).1.sqls[i]?)) := by
  obtain ⟨hn, hq⟩ := getReplicatedObjectsSQLs_of_live m s remote ctx host hctx hrep
  refine ⟨hn, hq, fun h1 h2 h3 => ?_⟩
  rw [hn, hq]
  refine ⟨?_, fun i hi => ⟨?_, ?_⟩, fun i hi => ⟨?_, ?_⟩, fun i hi => ⟨?_, ?_⟩⟩
  · simp only [List.length_append, h1, h2, h3]
  · rw [List.append_assoc, List.getElem?_append_left hi]
  · rw [List.append_assoc, List.getElem?_append_left (h1 ▸ hi)]
  · rw [List.append_assoc, List.getElem?_append_right (Nat.le_add_right _ _),
      Nat.add_sub_cancel_left, List.getElem?_append_left hi]
  · rw [List.append_assoc, h1, List.getElem?_append_right (Nat.le_add_right _ _),
      Nat.add_sub_cancel_left, List.getElem?_append_left (h2 ▸ hi)]
  · rw [List.getElem?_append_right (by rw [List.length_append]; exact Nat.le_add_right _ _),
      List.length_append, Nat.add_sub_cancel_left]
  · rw [h1, h2,
      List.getElem?_append_right (by rw [List.length_append]; exact Nat.le_add_right _ _),
      List.length_append, Nat.add_sub_cancel_left]

theorem getReplicatedObjectsSQLs_concat_in_order_witness :
    IsContextDone sampleLiveContext = false
    ∧ shouldCreateReplicatedObjects sampleMacros sampleHostAloneShardAll = true
    ∧ (getReplicatedObjectsSQLs sampleMacros sampleSchemer () sampleLiveContext
        sampleHostAloneShardAll).names
      = (databasePass sampleMacros sampleSchemer () sampleLiveContext
          sampleHostAloneShardAll).1.names
        ++ (tablePass sampleMacros sampleSchemer () sampleLiveContext
          sampleHostAloneShardAll).1.names
        ++ (functionPass sampleMacros sampleSchemer () sampleLiveContext
          sampleHostAloneShardAll).1.names
    ∧ (getReplicatedObjectsSQLs sampleMacros sampleSchemer () sampleLiveContext
        sampleHostAloneShardAll).names.length
      = (getReplicatedObjectsSQLs sampleMacros sampleSchemer () sampleLiveContext
        sampleHostAloneShardAll).sqls.length :=
  ⟨by decide, by decide,
   (getReplicatedObjectsSQLs_concat_in_order sampleMacros sampleSchemer ()
      sampleLiveContext sampleHostAloneShardAll (by decide) (by decide)).1,
   ((getReplicatedObjectsSQLs_concat_in_order sampleMacros sampleSchemer ()
      sampleLiveContext sampleHostAloneShardAll (by decide) (by decide)).2.2
      (by decide) (by decide) (by decide)).1⟩

/-! ## Lemmas on `Sprintf` with the patterns of the namer -/

theorem Sprintf_s_dash_s (a b : GoString) :
    Sprintf (str "%s-%s") [a, b] = a ++ str "-" ++ b := by
  have hp : str "%s-%s" = [0x25, 0x73, 0x2d, 0x25, 0x73] := by decide
  have hd : str "-" = [0x2d] := by decide
  rw [hp, hd]
  simp [Sprintf, sprintfExtra]

theorem Sprintf_podNamePattern (a : GoString) :
    Sprintf podNamePattern [a] = a ++ str "-0" := by
  have hp : podNamePattern = [0x25, 0x73, 0x2d, 0x30] := by decide
  have hd : str "-0" = [0x2d, 0x30] := by decide
  rw [hp, hd]
  simp [Sprintf, sprintfExtra]

theorem SprintfArgs_d (i : Int) : SprintfArgs (str "%d") [FmtArg.int i] = Itoa i := by
  have hp : str "%d" = [0x25, 0x64] := by decide
  rw [hp]
  simp [SprintfArgs, FmtArg.accepts, FmtArg.print]

theorem SprintfArgs_d_dash_d (i j : Int) :
    SprintfArgs (str "%d-%d") [FmtArg.int i, FmtArg.int j] = Itoa i ++ str "-" ++ Itoa j := by
  have hp : str "%d-%d" = [0x25, 0x64, 0x2d, 0x25, 0x64] := by decide
  have hd : str "-" = [0x2d] := by decide
  rw [hp, hd]
  simp [SprintfArgs, FmtArg.accepts, FmtArg.print]

/-- The two models of `fmt.Sprintf` agree on string operands. -/
theorem sprintfExtraTyped_string (first : Bool) (args : List GoString) :
    sprintfExtraTyped first (args.map FmtArg.string) = sprintfExtraArgs first args := by
  induction args generalizing first with
  | nil => cases first <;> rfl
  | cons a rest ih =>
    have hs : str ", string=" = str ", " ++ str "string=" := by decide
    cases first <;>
      simp [sprintfExtraTyped, sprintfExtraArgs, FmtArg.typed, ih, hs]

theorem SprintfArgs_string (f : GoString) (args : List GoString) :
    SprintfArgs f (args.map FmtArg.string) = Sprintf f args := by
  induction f, args using Sprintf.induct with
  | case1 args =>
    simp [SprintfArgs, Sprintf, sprintfExtra, sprintfExtraTyped_string]
  | case2 args =>
    simp [SprintfArgs, Sprintf, sprintfExtra, sprintfExtraTyped_string]
  | case3 rest args ih =>
    simp [SprintfArgs, Sprintf, ih]
  | case4 c rest hc ih =>
    simp only [List.map_nil] at ih ⊢
    simp [SprintfArgs, Sprintf, hc, ih]
  | case5 c rest hc a args hv ih =>
    simp only [List.map_cons]
    simp [SprintfArgs, Sprintf, hc, hv, ih, FmtArg.accepts, FmtArg.print]
  | case6 c rest hc a args hv ih =>
    have hs : str "(string=" = str "(" ++ str "string=" := by decide
    simp only [List.map_cons]
    simp [SprintfArgs, Sprintf, hc, hv, ih, FmtArg.accepts, FmtArg.typed, hs]
  | case7 b rest args h1 h2 ih =>
    rw [SprintfArgs, Sprintf, ih]
    · exact h1
    · exact h2
    · exact h1
    · exact h2

/-! ## Errors of the remote queries -/

/-- C11, counterexample: the table query fails, and
`getReplicatedObjectsSQLs` returns no error and the names and statements
of the database pass. -/
theorem queryFailure_counterexample :
    (tablePass sampleMacros sampleFailingSchemer () sampleLiveContext sampleHostOfPair).1.err
        = some (str "connection refused")
    ∧ (getReplicatedObjectsSQLs sampleMacros sampleFailingSchemer () sampleLiveContext
        sampleHostOfPair).err = none
    ∧ (getReplicatedObjectsSQLs sampleMacros sampleFailingSchemer () sampleLiveContext
        sampleHostOfPair).names = [str "events"]
    ∧ (getReplicatedObjectsSQLs sampleMacros sampleFailingSchemer () sampleLiveContext
        sampleHostOfPair).sqls = [str "CREATE DATABASE events"] := by
  decide

/-- C11, amended: `getReplicatedObjectsSQLs` returns a nil error on every
path, also when a remote query fails; the error of a query is dropped, and
when the context is not done and replication is warranted the plan is the
concatenation of the names and statements that the three queries
returned, whatever their errors. -/
theorem getReplicatedObjectsSQLs_err_nil {σ : Type} (m : MacrosEngine) (s : ClusterSchemer σ)
    (remote : σ) (ctx : Context) (host : ChiHost) :
    (getReplicatedObjectsSQLs m s remote ctx host).err = none
    ∧ (IsContextDone ctx = false → shouldCreateReplicatedObjects m host = true →
        (getReplicatedObjectsSQLs m s remote ctx host).names
          = (databasePass m s remote ctx host).1.names ++ (tablePass m s remote ctx host).1.names
            ++ (functionPass m s remote ctx host).1.names
        ∧ (getReplicatedObjectsSQLs m s remote ctx host).sqls
          = (databasePass m s remote ctx host).1.sqls ++ (tablePass m s remote ctx host).1.sqls
            ++ (functionPass m s remote ctx host).1.sqls) := by
  refine ⟨?_, fun hctx hrep => getReplicatedObjectsSQLs_of_live m s remote ctx host hctx hrep⟩
  unfold getReplicatedObjectsSQLs
  split
  · rfl
  · split <;> rfl

theorem getReplicatedObjectsSQLs_err_nil_witness :
    (functionPass sampleMacros sampleFailingSchemer () sampleLiveContext
        sampleHostReplicaNoneShardAll).1.err = none
    ∧ (tablePass sampleMacros sampleFailingSchemer () sampleLiveContext
        sampleHostReplicaNoneShardAll).1.err ≠ none
    ∧ (getReplicatedObjectsSQLs sampleMacros sampleFailingSchemer () sampleLiveContext
        sampleHostReplicaNoneShardAll).err = none
    ∧ (getReplicatedObjectsSQLs sampleMacros sampleFailingSchemer () sampleLiveContext
        sampleHostReplicaNoneShardAll).names = [str "events"] :=
  ⟨by decide, by decide,
   (getReplicatedObjectsSQLs_err_nil sampleMacros sampleFailingSchemer ()
      sampleLiveContext sampleHostReplicaNoneShardAll).1,
   ((getReplicatedObjectsSQLs_err_nil sampleMacros sampleFailingSchemer ()
      sampleLiveContext sampleHostReplicaNoneShardAll).2 (by decide) (by decide)).1.trans
      (by decide)⟩

/-! ## Host names -/

/-- The current form of a host name is the shard name, `-`, the replica
name. -/
theorem CreateHostName_eq (host : ChiHost) (shard : ChiShard) (shardIndex : Int)
    (replica : ChiReplica) (replicaIndex : Int) :
    CreateHostName host shard shardIndex replica replicaIndex
      = shard.data.Name ++ str "-" ++ replica.Name :=
  Sprintf_s_dash_s _ _

/-- The switch of `IsAutoGeneratedHostName`, case by case. -/
theorem IsAutoGeneratedHostName_true_iff (name : GoString) (host : ChiHost) (shard : ChiShard)
    (shardIndex : Int) (replica : ChiReplica) (replicaIndex : Int) :
    IsAutoGeneratedHostName name host shard shardIndex replica replicaIndex = true ↔
      name = CreateHostName host shard shardIndex replica replicaIndex
      ∨ name = Itoa shardIndex ++ str "-" ++ Itoa replicaIndex
      ∨ name = Itoa shardIndex
      ∨ name = Itoa replicaIndex := by
  unfold IsAutoGeneratedHostName
  rw [SprintfArgs_d_dash_d, SprintfArgs_d, SprintfArgs_d]
  by_cases h1 : name = CreateHostName host shard shardIndex replica replicaIndex
  · simp [h1]
  · by_cases h2 : name = Itoa shardIndex ++ str "-" ++ Itoa replicaIndex
    · simp [h2]
    · by_cases h3 : name = Itoa shardIndex
      · simp [h3]
      · by_cases h4 : name = Itoa replicaIndex
        · simp [h4]
        · simp [h1, h2, h3, h4]

/-- C12: `IsAutoGeneratedHostName` returns true if and only if the name is
the current form `CreateHostName(...)`, or the decimal shard index, `-`,
the decimal replica index, or the decimal shard index alone, or the
decimal replica index alone; in particular it is true for the name that
`CreateHostName` produces. -/
theorem IsAutoGeneratedHostName_iff (name : GoString) (host : ChiHost) (shard : ChiShard)
    (shardIndex : Int) (replica : ChiReplica) (replicaIndex : Int) :
    (IsAutoGeneratedHostName name host shard shardIndex replica replicaIndex = true ↔
      name = CreateHostName host shard shardIndex replica replicaIndex
      ∨ name = Itoa shardIndex ++ str "-" ++ Itoa replicaIndex
      ∨ name = Itoa shardIndex
      ∨ name = Itoa replicaIndex)
    ∧ IsAutoGeneratedHostName (CreateHostName host shard shardIndex replica replicaIndex)
        host shard shardIndex replica replicaIndex = true :=
  ⟨IsAutoGeneratedHostName_true_iff name host shard shardIndex replica replicaIndex,
   (IsAutoGeneratedHostName_true_iff _ host shard shardIndex replica replicaIndex).mpr
     (Or.inl rfl)⟩

/-- C13, counterexample: with shard index 2 and replica index 0, for the
shard named `custom` and the replica named `name` the name `custom-name`
is the current form and is accepted. -/
theorem customName_counterexample :
    IsAutoGeneratedHostName (str "custom-name") sampleHostAlone (sampleShardNamed "custom") 2
      (sampleReplicaNamed "name") 0 = true := by
  decide

/-- C13, amended: with shard index 2 and replica index 0, for every host,
shard and replica, `IsAutoGeneratedHostName` accepts the current form,
`2-0`, `2` and `0`, and it rejects the name `custom-name` whenever that
name is not the current form (the shard name, `-`, the replica name). -/
theorem IsAutoGeneratedHostName_shard2_replica0 (host : ChiHost) (shard : ChiShard)
    (replica : ChiReplica) :
    IsAutoGeneratedHostName (CreateHostName host shard 2 replica 0) host shard 2 replica 0 = true
    ∧ IsAutoGeneratedHostName (str "2-0") host shard 2 replica 0 = true
    ∧ IsAutoGeneratedHostName (str "2") host shard 2 replica 0 = true
    ∧ IsAutoGeneratedHostName (str "0") host shard 2 replica 0 = true
    ∧ (shard.data.Name ++ str "-" ++ replica.Name ≠ str "custom-name" →
        IsAutoGeneratedHostName (str "custom-name") host shard 2 replica 0 = false) := by
  have h20 : str "2-0" = Itoa 2 ++ str "-" ++ Itoa 0 := by decide
  have h2 : str "2" = Itoa 2 := by decide
  have h0 : str "0" = Itoa 0 := by decide
  refine ⟨(IsAutoGeneratedHostName_true_iff _ host shard 2 replica 0).mpr (Or.inl rfl),
    (IsAutoGeneratedHostName_true_iff _ host shard 2 replica 0).mpr (Or.inr (Or.inl h20)),
    (IsAutoGeneratedHostName_true_iff _ host shard 2 replica 0).mpr
      (Or.inr (Or.inr (Or.inl h2))),
    (IsAutoGeneratedHostName_true_iff _ host shard 2 replica 0).mpr
      (Or.inr (Or.inr (Or.inr h0))),
    fun hne => ?_⟩
  rw [← Bool.not_eq_true, IsAutoGeneratedHostName_true_iff, CreateHostName_eq]
  rintro (h | h | h | h)
  · exact hne h.symm
  · exact absurd h (by decide)
  · exact absurd h (by decide)
  · exact absurd h (by decide)

theorem IsAutoGeneratedHostName_shard2_replica0_witness :
    (sampleShardNamed "2").data.Name ++ str "-" ++ (sampleReplicaNamed "0").Name
        ≠ str "custom-name"
    ∧ IsAutoGeneratedHostName (str "2-0") sampleHostAlone (sampleShardNamed "2") 2
        (sampleReplicaNamed "0") 0 = true
    ∧ IsAutoGeneratedHostName (str "custom-name") sampleHostAlone (sampleShardNamed "2") 2
        (sampleReplicaNamed "0") 0 = false :=
  ⟨by decide,
   (IsAutoGeneratedHostName_shard2_replica0 sampleHostAlone (sampleShardNamed "2")
      (sampleReplicaNamed "0")).2.1,
   (IsAutoGeneratedHostName_shard2_replica0 sampleHostAlone (sampleShardNamed "2")
      (sampleReplicaNamed "0")).2.2.2.2 (by decide)⟩

/-! ## Generated names: override pattern or default pattern -/

/-- The choice between the pattern of a template and a default pattern
that the five service and StatefulSet names make follows the rule of the
spec. -/
theorem ExpandsOverrideOrDefault_of_choice (template : Option NameTemplate)
    (default : GoString) (expand : GoString → GoString) :
    ExpandsOverrideOrDefault template default expand
      (expand (match template with
        | some template => if template.GenerateName ≠ [] then template.GenerateName else default
        | none => default)) := by
  refine ⟨fun t ht hne => ?_, fun t ht he => ?_, fun ht => ?_⟩
  · subst ht
    simp [hne]
  · subst ht
    simp [he]
  · subst ht
    rfl

/-- C14: for `CreateCHIServiceName`, `CreateClusterServiceName`,
`CreateShardServiceName`, `CreateStatefulSetName` and
`CreateStatefulSetServiceName` the pattern expanded is the `GenerateName`
of the template (the service template, the pod template for the
StatefulSet) when the entity has the template and its `GenerateName` is
not empty, and the built-in default pattern of the resource kind
otherwise. -/
theorem generatedNames_override_or_default (m : MacrosEngine) (chi : ClickHouseInstallation)
    (cluster : Cluster) (shard : ChiShard) (host : ChiHost) :
    ExpandsOverrideOrDefault chi.GetCHIServiceTemplate (chiServiceNamePattern m)
        (m.Line (Obj.chi chi)) (CreateCHIServiceName m chi)
    ∧ ExpandsOverrideOrDefault cluster.GetServiceTemplate (clusterServiceNamePattern m)
        (m.Line (Obj.cluster cluster)) (CreateClusterServiceName m cluster)
    ∧ ExpandsOverrideOrDefault shard.GetServiceTemplate (shardServiceNamePattern m)
        (m.Line (Obj.shard shard)) (CreateShardServiceName m shard)
    ∧ ExpandsOverrideOrDefault host.GetPodTemplate (statefulSetNamePattern m)
        (m.Line (Obj.host host)) (CreateStatefulSetName m host)
    ∧ ExpandsOverrideOrDefault host.GetServiceTemplate (statefulSetServiceNamePattern m)
        (m.Line (Obj.host host)) (CreateStatefulSetServiceName m host) :=
  ⟨ExpandsOverrideOrDefault_of_choice _ _ _, ExpandsOverrideOrDefault_of_choice _ _ _,
   ExpandsOverrideOrDefault_of_choice _ _ _, ExpandsOverrideOrDefault_of_choice _ _ _,
   ExpandsOverrideOrDefault_of_choice _ _ _⟩

theorem generatedNames_override_or_default_witness :
    sampleHostWithTemplates.GetPodTemplate = some sampleTemplate
    ∧ sampleTemplate.GenerateName ≠ []
    ∧ CreateStatefulSetName sampleMacros sampleHostWithTemplates
        = sampleMacros.Line (Obj.host sampleHostWithTemplates) (str "custom-{host}")
    ∧ sampleHostUsingFQDN.GetServiceTemplate = none
    ∧ CreateStatefulSetServiceName sampleMacros sampleHostUsingFQDN
        = sampleMacros.Line (Obj.host sampleHostUsingFQDN) (str "chi-{chi}-{cluster}-{host}") :=
  ⟨by decide, by decide,
   (generatedNames_override_or_default sampleMacros sampleHostWithTemplates.chi
      sampleHostWithTemplates.GetCluster sampleHostWithTemplates.GetShard
      sampleHostWithTemplates).2.2.2.1.1 sampleTemplate (by decide) (by decide),
   by decide,
   ((generatedNames_override_or_default sampleMacros sampleHostUsingFQDN.chi
      sampleHostUsingFQDN.GetCluster sampleHostUsingFQDN.GetShard
      sampleHostUsingFQDN).2.2.2.2.2.2 (by decide)).trans (by decide)⟩

/-- C15, counterexample: the host and the installation have templates with
the explicit pattern `custom-{host}`, and the three ConfigMap names are
the expansions of the default patterns, not of the pattern of the
templates. -/
theorem configMapOverride_counterexample :
    sampleHostWithTemplates.GetServiceTemplate = some sampleTemplate
    ∧ sampleHostWithTemplates.GetPodTemplate = some sampleTemplate
    ∧ sampleHostWithTemplates.chi.GetCHIServiceTemplate = some sampleTemplate
    ∧ CreateConfigMapHostName sampleMacros sampleHostWithTemplates
        ≠ sampleMacros.Line (Obj.host sampleHostWithTemplates) sampleTemplate.GenerateName
    ∧ CreateConfigMapCommonName sampleMacros sampleHostWithTemplates.chi
        ≠ sampleMacros.Line (Obj.chi sampleHostWithTemplates.chi) sampleTemplate.GenerateName
    ∧ CreateConfigMapCommonUsersName sampleMacros sampleHostWithTemplates.chi
        ≠ sampleMacros.Line (Obj.chi sampleHostWithTemplates.chi) sampleTemplate.GenerateName
    ∧ CreateConfigMapHostName sampleMacros sampleHostWithTemplates
        = str "chi-{chi}-deploy-confd-{cluster}-{host}" := by
  decide

/-- C15, amended: the three ConfigMap names accept no override pattern:
`CreateConfigMapHostName`, `CreateConfigMapCommonName` and
`CreateConfigMapCommonUsersName` are always the expansion of the built-in
default pattern of their kind, whatever templates the host or the
installation has. -/
theorem configMapNames_default_only (m : MacrosEngine) (chi : ClickHouseInstallation)
    (host : ChiHost) :
    CreateConfigMapHostName m host
        = m.Line (Obj.host host)
            (str "chi-" ++ m.macrosChiName ++ str "-deploy-confd-" ++ m.macrosClusterName
              ++ str "-" ++ m.macrosHostName)
    ∧ CreateConfigMapCommonName m chi
        = m.Line (Obj.chi chi) (str "chi-" ++ m.macrosChiName ++ str "-common-configd")
    ∧ CreateConfigMapCommonUsersName m chi
        = m.Line (Obj.chi chi) (str "chi-" ++ m.macrosChiName ++ str "-common-usersd") :=
  ⟨rfl, rfl, rfl⟩

/-! ## Pod names and storage-claim names -/

/-- The pod name of a host is the StatefulSet name with the suffix `-0`. -/
theorem CreatePodName_host (m : MacrosEngine) (host : ChiHost) :
    CreatePodName m (Obj.host host) = CreateStatefulSetName m host ++ str "-0" :=
  Sprintf_podNamePattern _

/-- C16: `CreatePodName` returns the StatefulSet name followed by `-0`: for
a StatefulSet object its name and `-0`, for a host
`CreateStatefulSetName(host)` and `-0`, and for an object of any other
kind the literal `unknown-type`. -/
theorem CreatePodName_cases (m : MacrosEngine) :
    (∀ statefulSet : StatefulSet,
      CreatePodName m (Obj.statefulSet statefulSet) = statefulSet.Name ++ str "-0")
    ∧ (∀ host : ChiHost,
      CreatePodName m (Obj.host host) = CreateStatefulSetName m host ++ str "-0")
    ∧ (∀ chi : ClickHouseInstallation, CreatePodName m (Obj.chi chi) = str "unknown-type")
    ∧ (∀ cluster : Cluster, CreatePodName m (Obj.cluster cluster) = str "unknown-type")
    ∧ (∀ shard : ChiShard, CreatePodName m (Obj.shard shard) = str "unknown-type")
    ∧ CreatePodName m Obj.other = str "unknown-type" :=
  ⟨fun _ => Sprintf_podNamePattern _, fun host => CreatePodName_host m host,
   fun _ => rfl, fun _ => rfl, fun _ => rfl, rfl⟩

/-- C17: the name of a storage claim is the name of the claim template,
`-`, the pod name of the host: `CreatePVCNameByVolumeClaimTemplate`
returns it for the template it is given, and `CreatePVCNameByVolumeMount`
returns it with true for the template found for the volume mount, and the
empty string with false when no template is found. -/
theorem CreatePVCName_cases (m : MacrosEngine)
    (GetVolumeClaimTemplate : ChiHost → VolumeMount → Option VolumeClaimTemplate)
    (host : ChiHost) (volumeMount : VolumeMount) :
    (∀ t : VolumeClaimTemplate,
      CreatePVCNameByVolumeClaimTemplate m host t
        = t.Name ++ str "-" ++ CreatePodName m (Obj.host host))
    ∧ (∀ t : VolumeClaimTemplate, GetVolumeClaimTemplate host volumeMount = some t →
      CreatePVCNameByVolumeMount m GetVolumeClaimTemplate host volumeMount
        = (t.Name ++ str "-" ++ CreatePodName m (Obj.host host), true))
    ∧ (GetVolumeClaimTemplate host volumeMount = none →
      CreatePVCNameByVolumeMount m GetVolumeClaimTemplate host volumeMount = ([], false)) := by
  refine ⟨fun _ => rfl, fun t ht => ?_, fun ht => ?_⟩
  · simp [CreatePVCNameByVolumeMount, ht, createPVCName]
  · simp [CreatePVCNameByVolumeMount, ht]

theorem CreatePVCName_cases_witness :
    sampleGetVolumeClaimTemplate sampleHostWithTemplates { Name := str "data" }
        = some { Name := str "data-volume" }
    ∧ CreatePVCNameByVolumeMount sampleMacros sampleGetVolumeClaimTemplate
        sampleHostWithTemplates { Name := str "data" } = (str "data-volume-custom-{host}-0", true)
    ∧ sampleGetVolumeClaimTemplate sampleHostWithTemplates { Name := str "config" } = none
    ∧ CreatePVCNameByVolumeMount sampleMacros sampleGetVolumeClaimTemplate
        sampleHostWithTemplates { Name := str "config" } = ([], false) :=
  ⟨by decide,
   ((CreatePVCName_cases sampleMacros sampleGetVolumeClaimTemplate sampleHostWithTemplates
      { Name := str "data" }).2.1 { Name := str "data-volume" } (by decide)).trans (by decide),
   by decide,
   (CreatePVCName_cases sampleMacros sampleGetVolumeClaimTemplate sampleHostWithTemplates
      { Name := str "config" }).2.2 (by decide)⟩

/-! ## Host names of an instance and lists of FQDNs -/

/-- C18: `CreateInstanceHostname` has two modes selected by
`ReplicasUseFQDN` of the installation: when the flag is true it returns
the pod FQDN of the host, otherwise the short hostname, which is
`CreateStatefulSetServiceName(host)`. -/
theorem CreateInstanceHostname_modes (m : MacrosEngine) (host : ChiHost) :
    (host.GetCHI.ReplicasUseFQDN = true → CreateInstanceHostname m host = createPodFQDN m host)
    ∧ (host.GetCHI.ReplicasUseFQDN = false →
        CreateInstanceHostname m host = CreatePodHostname m host
        ∧ CreateInstanceHostname m host = CreateStatefulSetServiceName m host) := by
  refine ⟨fun h => ?_, fun h => ?_⟩
  · simp [CreateInstanceHostname, h]
  · simp [CreateInstanceHostname, h, CreatePodHostname]

theorem CreateInstanceHostname_modes_witness :
    sampleHostUsingFQDN.GetCHI.ReplicasUseFQDN = true
    ∧ CreateInstanceHostname sampleMacros sampleHostUsingFQDN
        = str "chi-{chi}-{cluster}-{host}.prod.svc.cluster.local"
    ∧ sampleHostWithTemplates.GetCHI.ReplicasUseFQDN = false
    ∧ CreateInstanceHostname sampleMacros sampleHostWithTemplates = str "custom-{host}" :=
  ⟨by decide,
   ((CreateInstanceHostname_modes sampleMacros sampleHostUsingFQDN).1 (by decide)).trans
     (by decide),
   by decide,
   (((CreateInstanceHostname_modes sampleMacros sampleHostWithTemplates).2 (by decide)).2).trans
     (by decide)⟩

/-- C19: for a host and a scope of shard, cluster or installation kind,
`CreateFQDNs` enumerates the pod FQDNs of the hosts walked under that
scope, in walk order: with `excludeSelf = false` the result is the whole
list, with `excludeSelf = true` it is the list without the entries equal
to the FQDN of the host itself, the other entries being kept in order;
the FQDN of the host is then not in the result. -/
theorem CreateFQDNs_host_scopes (m : MacrosEngine) (host : ChiHost) :
    CreateFQDNs m (Obj.host host) Scope.shard false
        = host.GetShard.WalkHosts.map (createPodFQDN m)
    ∧ CreateFQDNs m (Obj.host host) Scope.cluster false
        = host.GetCluster.WalkHosts.map (createPodFQDN m)
    ∧ CreateFQDNs m (Obj.host host) Scope.chi false
        = host.GetCHI.WalkHosts.map (createPodFQDN m)
    ∧ CreateFQDNs m (Obj.host host) Scope.shard true
        = (host.GetShard.WalkHosts.map (createPodFQDN m)).filter
            (fun fqdn => decide (fqdn ≠ createPodFQDN m host))
    ∧ CreateFQDNs m (Obj.host host) Scope.cluster true
        = (host.GetCluster.WalkHosts.map (createPodFQDN m)).filter
            (fun fqdn => decide (fqdn ≠ createPodFQDN m host))
    ∧ CreateFQDNs m (Obj.host host) Scope.chi true
        = (host.GetCHI.WalkHosts.map (createPodFQDN m)).filter
            (fun fqdn => decide (fqdn ≠ createPodFQDN m host))
    ∧ createPodFQDN m host ∉ CreateFQDNs m (Obj.host host) Scope.shard true
    ∧ createPodFQDN m host ∉ CreateFQDNs m (Obj.host host) Scope.cluster true
    ∧ createPodFQDN m host ∉ CreateFQDNs m (Obj.host host) Scope.chi true
    ∧ (host ∈ host.GetShard.WalkHosts →
        createPodFQDN m host ∈ CreateFQDNs m (Obj.host host) Scope.shard false)
    ∧ (host ∈ host.GetCluster.WalkHosts →
        createPodFQDN m host ∈ CreateFQDNs m (Obj.host host) Scope.cluster false)
    ∧ (host ∈ host.GetCHI.WalkHosts →
        createPodFQDN m host ∈ CreateFQDNs m (Obj.host host) Scope.chi false) := by
  refine ⟨CreateFQDNs_host_shard_false m host, CreateFQDNs_host_cluster_false m host,
    CreateFQDNs_host_chi_false m host, rfl, rfl, rfl, ?_, ?_, ?_, fun h => ?_, fun h => ?_,
    fun h => ?_⟩
  · simp [CreateFQDNs, RemoveFromArray]
  · simp [CreateFQDNs, RemoveFromArray]
  · simp [CreateFQDNs, RemoveFromArray]
  · rw [CreateFQDNs_host_shard_false]
    exact List.mem_map_of_mem _ h
  · rw [CreateFQDNs_host_cluster_false]
    exact List.mem_map_of_mem _ h
  · rw [CreateFQDNs_host_chi_false]
    exact List.mem_map_of_mem _ h

theorem CreateFQDNs_host_scopes_witness :
    sampleHostOfPair ∈ sampleHostOfPair.GetCHI.WalkHosts
    ∧ CreateFQDNs sampleMacros (Obj.host sampleHostOfPair) Scope.chi false
        = [str "a.prod.svc.cluster.local", str "b.prod.svc.cluster.local"]
    ∧ createPodFQDN sampleMacros sampleHostOfPair
        ∈ CreateFQDNs sampleMacros (Obj.host sampleHostOfPair) Scope.chi false
    ∧ CreateFQDNs sampleMacros (Obj.host sampleHostOfPair) Scope.chi true
        = [str "a.prod.svc.cluster.local"] :=
  ⟨by decide,
   (CreateFQDNs_host_scopes sampleMacros sampleHostOfPair).2.2.1.trans (by decide),
   (CreateFQDNs_host_scopes sampleMacros sampleHostOfPair).2.2.2.2.2.2.2.2.2.2.2 (by decide),
   (CreateFQDNs_host_scopes sampleMacros sampleHostOfPair).2.2.2.2.2.1.trans (by decide)⟩

/-! ## Name parts of an object -/

/-- C20: when the kind of the object does not carry the name part, the
sentinel `ERROR` is returned: `getNamePartClusterName` for an
installation, `getNamePartShardName` for an installation or a cluster,
`getNamePartNamespace` and `getNamePartCHIName` for an object that is not
an installation, cluster, shard or host (as are all four for such an
object); for every supported kind they return the name part of the entity
(of the installation itself, of the address otherwise), truncated to the
budget of the context and sanitized. -/
theorem getNamePart_cases (n : namer) (chi : ClickHouseInstallation) (cluster : Cluster)
    (shard : ChiShard) (host : ChiHost) (statefulSet : StatefulSet) :
    (n.getNamePartClusterName (Obj.chi chi) = str "ERROR"
      ∧ n.getNamePartShardName (Obj.chi chi) = str "ERROR"
      ∧ n.getNamePartShardName (Obj.cluster cluster) = str "ERROR")
    ∧ (n.getNamePartNamespace (Obj.statefulSet statefulSet) = str "ERROR"
      ∧ n.getNamePartNamespace Obj.other = str "ERROR"
      ∧ n.getNamePartCHIName (Obj.statefulSet statefulSet) = str "ERROR"
      ∧ n.getNamePartCHIName Obj.other = str "ERROR"
      ∧ n.getNamePartClusterName (Obj.statefulSet statefulSet) = str "ERROR"
      ∧ n.getNamePartClusterName Obj.other = str "ERROR"
      ∧ n.getNamePartShardName (Obj.statefulSet statefulSet) = str "ERROR"
      ∧ n.getNamePartShardName Obj.other = str "ERROR")
    ∧ (n.getNamePartNamespace (Obj.chi chi) = sanitize (StringHead chi.Namespace n.lenCHI)
      ∧ n.getNamePartNamespace (Obj.cluster cluster)
          = sanitize (StringHead cluster.data.Address.Namespace n.lenCHI)
      ∧ n.getNamePartNamespace (Obj.shard shard)
          = sanitize (StringHead shard.data.Address.Namespace n.lenCHI)
      ∧ n.getNamePartNamespace (Obj.host host)
          = sanitize (StringHead host.data.Address.Namespace n.lenCHI))
    ∧ (n.getNamePartCHIName (Obj.chi chi) = sanitize (StringHead chi.Name n.lenCHI)
      ∧ n.getNamePartCHIName (Obj.cluster cluster)
          = sanitize (StringHead cluster.data.Address.CHIName n.lenCHI)
      ∧ n.getNamePartCHIName (Obj.shard shard)
          = sanitize (StringHead shard.data.Address.CHIName n.lenCHI)
      ∧ n.getNamePartCHIName (Obj.host host)
          = sanitize (StringHead host.data.Address.CHIName n.lenCHI))
    ∧ (n.getNamePartClusterName (Obj.cluster cluster)
          = sanitize (StringHead cluster.data.Address.ClusterName n.lenCluster)
      ∧ n.getNamePartClusterName (Obj.shard shard)
          = sanitize (StringHead shard.data.Address.ClusterName n.lenCluster)
      ∧ n.getNamePartClusterName (Obj.host host)
          = sanitize (StringHead host.data.Address.ClusterName n.lenCluster))
    ∧ (n.getNamePartShardName (Obj.shard shard)
          = sanitize (StringHead shard.data.Address.ShardName n.lenShard)
      ∧ n.getNamePartShardName (Obj.host host)
          = sanitize (StringHead host.data.Address.ShardName n.lenShard)) :=
  ⟨⟨rfl, rfl, rfl⟩, ⟨rfl, rfl, rfl, rfl, rfl, rfl, rfl, rfl⟩, ⟨rfl, rfl, rfl, rfl⟩,
   ⟨rfl, rfl, rfl, rfl⟩, ⟨rfl, rfl, rfl⟩, ⟨rfl, rfl⟩⟩

/-- An example of the degraded mode: in the names context the shard part
of a cluster is `ERROR`, and the cluster part of a host of cluster `main`
is `main`. -/
theorem getNamePart_example :
    (newNamer namerContextNames).getNamePartShardName (Obj.cluster sampleHostOfPair.GetCluster)
        = str "ERROR"
    ∧ (newNamer namerContextNames).getNamePartClusterName (Obj.host sampleHostOfPair)
        = str "main" := by
  decide

/-! ## The normalization context -/

/-- C21: for every context created by `NewContext` (and for every context
that is not nil) and every installation `x`, `SetTarget(x)` returns `x`,
a following `GetTarget` returns `x`, whatever target was held before, and
`Options` still returns the options the context was created with. -/
theorem normalizer_SetTarget_GetTarget {Opts : Type} (options : Option Opts)
    (c : normalizer.Context Opts) (x y : Option ClickHouseInstallation) :
    (normalizer.SetTarget (normalizer.NewContext options) x).1 = x
    ∧ normalizer.GetTarget (normalizer.SetTarget (normalizer.NewContext options) x).2 = x
    ∧ normalizer.Options (normalizer.SetTarget (normalizer.NewContext options) x).2 = options
    ∧ normalizer.GetTarget
        (normalizer.SetTarget (normalizer.SetTarget (normalizer.NewContext options) y).2 x).2 = x
    ∧ normalizer.Options
        (normalizer.SetTarget (normalizer.SetTarget (normalizer.NewContext options) y).2 x).2
        = options
    ∧ (normalizer.SetTarget (some c) x).1 = x
    ∧ normalizer.GetTarget (normalizer.SetTarget (some c) x).2 = x
    ∧ normalizer.Options (normalizer.SetTarget (some c) x).2 = normalizer.Options (some c) :=
  ⟨rfl, rfl, rfl, rfl, rfl, rfl, rfl, rfl⟩

/-- C22: the accessors are safe on a context that is not initialized: on a
nil context `GetTarget` and `Options` return nil and `SetTarget(x)`
returns nil and leaves the context nil, and on a context just created
`GetTarget` returns nil. -/
theorem normalizer_nil_context {Opts : Type} (options : Option Opts)
    (x : Option ClickHouseInstallation) :
    normalizer.GetTarget (none : Option (normalizer.Context Opts)) = none
    ∧ normalizer.Options (none : Option (normalizer.Context Opts)) = none
    ∧ normalizer.SetTarget (none : Option (normalizer.Context Opts)) x = (none, none)
    ∧ normalizer.GetTarget (normalizer.NewContext options) = none :=
  ⟨rfl, rfl, rfl, rfl⟩

/-! ## Lemmas on `Sprintf` with literal text and one `%s` -/

theorem Sprintf_cons_of_ne (b : UInt8) (hb : b ≠ 0x25) (rest : GoString)
    (args : List GoString) : Sprintf (b :: rest) args = b :: Sprintf rest args := by
  rw [Sprintf]
  · intro h
    exact absurd h hb
  · intro _ _ h
    exact absurd h hb

theorem Sprintf_literal_append (l : GoString) (hl : (0x25 : UInt8) ∉ l) (rest : GoString)
    (args : List GoString) : Sprintf (l ++ rest) args = l ++ Sprintf rest args := by
  induction l with
  | nil => rfl
  | cons b l ih =>
    have hb : b ≠ 0x25 := fun h => hl (h ▸ List.mem_cons_self _ _)
    have hl2 : (0x25 : UInt8) ∉ l := fun h => hl (List.mem_cons_of_mem _ h)
    rw [List.cons_append, Sprintf_cons_of_ne b hb, ih hl2, List.cons_append]

theorem Sprintf_literal (l : GoString) (hl : (0x25 : UInt8) ∉ l) : Sprintf l [] = l := by
  have h := Sprintf_literal_append l hl [] []
  rw [List.append_nil] at h
  rw [h]
  simp [Sprintf, sprintfExtra]

theorem Sprintf_s (rest a : GoString) (args : List GoString) :
    Sprintf (0x25 :: 0x73 :: rest) (a :: args) = a ++ Sprintf rest args := by
  rw [Sprintf]
  simp

/-- The expansion of a pattern that is literal text around one `%s`. -/
theorem Sprintf_s_dot_one_verb (pre post a b : GoString) (hpre : (0x25 : UInt8) ∉ pre)
    (hpost : (0x25 : UInt8) ∉ post) :
    Sprintf (str "%s." ++ (pre ++ str "%s" ++ post)) [a, b] = a ++ str "." ++ pre ++ b ++ post := by
  have h1 : str "%s." = [0x25, 0x73, 0x2e] := by decide
  have h2 : str "%s" = [0x25, 0x73] := by decide
  have h3 : str "." = [0x2e] := by decide
  rw [h1, h2, h3]
  simp only [List.cons_append, List.nil_append, List.append_assoc]
  rw [Sprintf_s_dot, Sprintf_literal_append pre hpre, Sprintf_s, Sprintf_literal post hpost]

theorem Sprintf_default_domain (a b : GoString) :
    Sprintf (str "%s" ++ str "." ++ namespaceDomainPattern) [a, b]
      = a ++ str "." ++ b ++ str ".svc.cluster.local" := by
  have h := Sprintf_s_dot_one_verb [] (str ".svc.cluster.local") a b (by simp) (by decide)
  have hp : str "%s" ++ str "." ++ namespaceDomainPattern
      = str "%s." ++ ([] ++ str "%s" ++ str ".svc.cluster.local") := by decide
  rw [hp, h]
  simp

/-! ## Fully qualified names -/

/-- C25, counterexample: with the domain pattern `example.com`, which has
no `%s`, the pod FQDN is not the hostname, `.` and the pattern: the
namespace is appended as an operand left over. -/
theorem domainPattern_counterexample :
    (sampleHostWithDomain "example.com").GetCHI.NamespaceDomainPattern = str "example.com"
    ∧ CreatePodHostname sampleMacros (sampleHostWithDomain "example.com") = str "a"
    ∧ createPodFQDN sampleMacros (sampleHostWithDomain "example.com")
        = str "a.example.com%!(EXTRA string=prod)"
    ∧ createPodFQDN sampleMacros (sampleHostWithDomain "example.com") ≠ str "a.example.com" := by
  decide

/-- C25, amended: the pod FQDN is the pod hostname followed by the
namespace domain: when `NamespaceDomainPattern` of the installation is
empty, `createPodFQDN(host)` is `CreatePodHostname(host)`, `.`, the
namespace of the host and `.svc.cluster.local`, and
`CreateCHIServiceFQDN(chi)` is built the same way from
`CreateCHIServiceName(chi)` and the namespace of the installation; when
the pattern is literal text around one `%s` (no other `%` in it), the
name is followed by `.` and the pattern with its `%s` replaced by the
namespace. -/
theorem fqdn_patterns (m : MacrosEngine) (host : ChiHost) (chi : ClickHouseInstallation)
    (pre post : GoString) :
    (host.GetCHI.NamespaceDomainPattern = [] →
      createPodFQDN m host
        = CreatePodHostname m host ++ str "." ++ host.data.Address.Namespace
          ++ str ".svc.cluster.local")
    ∧ (chi.NamespaceDomainPattern = [] →
      CreateCHIServiceFQDN m chi
        = CreateCHIServiceName m chi ++ str "." ++ chi.Namespace ++ str ".svc.cluster.local")
    ∧ ((0x25 : UInt8) ∉ pre → (0x25 : UInt8) ∉ post →
      host.GetCHI.NamespaceDomainPattern = pre ++ str "%s" ++ post →
      createPodFQDN m host
        = CreatePodHostname m host ++ str "." ++ pre ++ host.data.Address.Namespace ++ post)
    ∧ ((0x25 : UInt8) ∉ pre → (0x25 : UInt8) ∉ post →
      chi.NamespaceDomainPattern = pre ++ str "%s" ++ post →
      CreateCHIServiceFQDN m chi
        = CreateCHIServiceName m chi ++ str "." ++ pre ++ chi.Namespace ++ post) := by
  have hne : pre ++ str "%s" ++ post ≠ [] := by
    have h2 : str "%s" = [0x25, 0x73] := by decide
    rw [h2]
    simp
  refine ⟨fun h => ?_, fun h => ?_, fun hpre hpost h => ?_, fun hpre hpost h => ?_⟩
  · simp only [createPodFQDN, h, podFQDNPattern]
    exact Sprintf_default_domain _ _
  · simp only [CreateCHIServiceFQDN, h, serviceFQDNPattern]
    exact Sprintf_default_domain _ _
  · simp only [createPodFQDN, h]
    rw [if_pos hne]
    exact Sprintf_s_dot_one_verb pre post _ _ hpre hpost
  · simp only [CreateCHIServiceFQDN, h]
    rw [if_pos hne]
    exact Sprintf_s_dot_one_verb pre post _ _ hpre hpost

theorem fqdn_patterns_witness :
    (0x25 : UInt8) ∉ str "ns-"
    ∧ (0x25 : UInt8) ∉ str ".example.com"
    ∧ (sampleHostWithDomain "ns-%s.example.com").GetCHI.NamespaceDomainPattern
        = str "ns-" ++ str "%s" ++ str ".example.com"
    ∧ createPodFQDN sampleMacros (sampleHostWithDomain "ns-%s.example.com")
        = str "a.ns-prod.example.com"
    ∧ (sampleCHINamed "demo" "").NamespaceDomainPattern = []
    ∧ CreateCHIServiceFQDN sampleMacros (sampleCHINamed "demo" "")
        = str "clickhouse-{chi}.prod.svc.cluster.local" :=
  ⟨by decide, by decide, by decide,
   ((fqdn_patterns sampleMacros (sampleHostWithDomain "ns-%s.example.com")
      (sampleCHINamed "demo" "") (str "ns-") (str ".example.com")).2.2.1
      (by decide) (by decide) (by decide)).trans (by decide),
   by decide,
   ((fqdn_patterns sampleMacros (sampleHostWithDomain "ns-%s.example.com")
      (sampleCHINamed "demo" "") (str "ns-") (str ".example.com")).2.1
      (by decide)).trans (by decide)⟩

/-- C26: `CreateHostName` returns the name of the shard, `-` and the name
of the replica for every input: the result does not depend on the host,
on the shard index or on the replica index. -/
theorem CreateHostName_ignores_indices (host host2 : ChiHost) (shard : ChiShard)
    (shardIndex shardIndex2 : Int) (replica : ChiReplica) (replicaIndex replicaIndex2 : Int) :
    CreateHostName host shard shardIndex replica replicaIndex
        = shard.data.Name ++ str "-" ++ replica.Name
    ∧ CreateHostName host2 shard shardIndex2 replica replicaIndex2
        = CreateHostName host shard shardIndex replica replicaIndex :=
  ⟨CreateHostName_eq host shard shardIndex replica replicaIndex, rfl⟩

/-! ## Secret names -/

/-- The secret name in closed form: the installation name, `-`, and a tail
that is `auto-secret` for a cluster without a name and the cluster name
followed by `-auto-secret` otherwise. -/
theorem CreateClusterAutoSecretName_eq (cluster : Cluster) :
    CreateClusterAutoSecretName cluster
      = cluster.chi.Name ++ 0x2d ::
          (if cluster.data.Name = [] then str "auto-secret"
           else cluster.data.Name ++ str "-auto-secret") := by
  have h1 : str "%s-auto-secret" = [0x25, 0x73] ++ str "-auto-secret" := by decide
  have h2 : str "%s-%s-auto-secret" = [0x25, 0x73] ++ (str "-" ++ ([0x25, 0x73]
      ++ str "-auto-secret")) := by decide
  have h3 : str "-auto-secret" = 0x2d :: str "auto-secret" := by decide
  have h4 : str "-" = [0x2d] := by decide
  have hl : (0x25 : UInt8) ∉ str "-auto-secret" := by decide
  have hd : (0x25 : UInt8) ∉ str "-" := by decide
  unfold CreateClusterAutoSecretName
  split
  · rw [h1]
    simp only [List.cons_append, List.nil_append]
    rw [Sprintf_s, Sprintf_literal _ hl, h3]
  · rw [h2]
    simp only [List.cons_append, List.nil_append]
    rw [Sprintf_s, Sprintf_literal_append _ hd, Sprintf_s, Sprintf_literal _ hl, h4]
    simp

/-- Two strings without `-`, each followed by `-` and a tail, are equal
only when the strings and the tails are. -/
theorem append_dash_inj (a b x y : GoString) (ha : (0x2d : UInt8) ∉ a)
    (hb : (0x2d : UInt8) ∉ b) (h : a ++ 0x2d :: x = b ++ 0x2d :: y) : a = b ∧ x = y := by
  induction a generalizing b with
  | nil =>
    cases b with
    | nil => simpa using h
    | cons c b =>
      simp only [List.nil_append, List.cons_append, List.cons.injEq] at h
      exact absurd (h.1 ▸ List.mem_cons_self _ _) hb
  | cons c a ih =>
    cases b with
    | nil =>
      simp only [List.nil_append, List.cons_append, List.cons.injEq] at h
      exact absurd (h.1 ▸ List.mem_cons_self _ _) ha
    | cons d b =>
      simp only [List.cons_append, List.cons.injEq] at h
      obtain ⟨hab, hxy⟩ := ih b (fun hm => ha (List.mem_cons_of_mem _ hm))
        (fun hm => hb (List.mem_cons_of_mem _ hm)) h.2
      exact ⟨by rw [h.1, hab], hxy⟩

/-- The tail of a secret name determines the cluster name. -/
theorem secretTail_inj (c1 c2 : GoString)
    (h : (if c1 = [] then str "auto-secret" else c1 ++ str "-auto-secret")
        = (if c2 = [] then str "auto-secret" else c2 ++ str "-auto-secret")) : c1 = c2 := by
  have hlen : (str "-auto-secret").length = (str "auto-secret").length + 1 := by decide
  by_cases h1 : c1 = []
  · by_cases h2 : c2 = []
    · rw [h1, h2]
    · rw [if_pos h1, if_neg h2] at h
      have hl := congrArg List.length h
      rw [List.length_append, hlen] at hl
      omega
  · by_cases h2 : c2 = []
    · rw [if_neg h1, if_pos h2] at h
      have hl := congrArg List.length h
      rw [List.length_append, hlen] at hl
      omega
    · rw [if_neg h1, if_neg h2] at h
      exact List.append_cancel_right h

/-- C23, counterexample: the cluster `c` of the installation `a-b` and the
cluster `b-c` of the installation `a` differ in both names and get the
same secret name. -/
theorem secretName_counterexample :
    ((sampleClusterNamed "a-b" "c").chi.Name, (sampleClusterNamed "a-b" "c").data.Name)
        ≠ ((sampleClusterNamed "a" "b-c").chi.Name, (sampleClusterNamed "a" "b-c").data.Name)
    ∧ CreateClusterAutoSecretName (sampleClusterNamed "a-b" "c") = str "a-b-c-auto-secret"
    ∧ CreateClusterAutoSecretName (sampleClusterNamed "a" "b-c") = str "a-b-c-auto-secret" := by
  decide

/-- C23, amended: for any two clusters whose (installation name, cluster
name) pairs differ, `CreateClusterAutoSecretName` returns different
secret names when the two installation names are equal, and when neither
installation name contains a `-`. -/
theorem CreateClusterAutoSecretName_injective (c1 c2 : Cluster)
    (hpair : (c1.chi.Name, c1.data.Name) ≠ (c2.chi.Name, c2.data.Name))
    (hchi : c1.chi.Name = c2.chi.Name
      ∨ ((0x2d : UInt8) ∉ c1.chi.Name ∧ (0x2d : UInt8) ∉ c2.chi.Name)) :
    CreateClusterAutoSecretName c1 ≠ CreateClusterAutoSecretName c2 := by
  intro h
  rw [CreateClusterAutoSecretName_eq, CreateClusterAutoSecretName_eq] at h
  have key : c1.chi.Name = c2.chi.Name
      ∧ (if c1.data.Name = [] then str "auto-secret" else c1.data.Name ++ str "-auto-secret")
        = (if c2.data.Name = [] then str "auto-secret"
           else c2.data.Name ++ str "-auto-secret") := by
    rcases hchi with he | ⟨h1, h2⟩
    · rw [he] at h
      exact ⟨he, List.tail_eq_of_cons_eq (List.append_cancel_left h)⟩
    · exact append_dash_inj _ _ _ _ h1 h2 h
  exact hpair (Prod.ext key.1 (secretTail_inj _ _ key.2))

theorem CreateClusterAutoSecretName_injective_witness :
    ((sampleClusterNamed "demo" "main").chi.Name, (sampleClusterNamed "demo" "main").data.Name)
        ≠ ((sampleClusterNamed "demo" "").chi.Name, (sampleClusterNamed "demo" "").data.Name)
    ∧ CreateClusterAutoSecretName (sampleClusterNamed "demo" "main") = str "demo-main-auto-secret"
    ∧ CreateClusterAutoSecretName (sampleClusterNamed "demo" "") = str "demo-auto-secret"
    ∧ CreateClusterAutoSecretName (sampleClusterNamed "demo" "main")
        ≠ CreateClusterAutoSecretName (sampleClusterNamed "demo" "") :=
  ⟨by decide, by decide, by decide,
   CreateClusterAutoSecretName_injective (sampleClusterNamed "demo" "main")
     (sampleClusterNamed "demo" "") (by decide) (Or.inl (by decide))⟩

/-! ## Lemmas on `sanitize`: both ends -/

theorem dropWhile_eq_self_of_head {α : Type} (p : α → Bool) (l : List α)
    (h : ∀ a, l.head? = some a → p a = false) : l.dropWhile p = l := by
  cases l with
  | nil => rfl
  | cons a l => simp [List.dropWhile, h a rfl]

theorem head?_dropWhile_not_pos {α : Type} (p : α → Bool) (l : List α) (a : α)
    (h : (l.dropWhile p).head? = some a) : p a = false := by
  have := List.head?_dropWhile_not p l
  rw [h] at this
  exact this

theorem rdropWhile_eq_self_of_getLast {α : Type} (p : α → Bool) (l : List α)
    (h : ∀ a, l.getLast? = some a → p a = false) : l.rdropWhile p = l := by
  rw [List.rdropWhile_eq_self_iff]
  intro hl
  have := h (l.getLast hl) (List.getLast?_eq_getLast _ hl)
  simp [this]

theorem rdropWhile_append_rtakeWhile {α : Type} (p : α → Bool) (l : List α) :
    l.rdropWhile p ++ l.rtakeWhile p = l := by
  unfold List.rdropWhile List.rtakeWhile
  rw [← List.reverse_append, List.takeWhile_append_dropWhile, List.reverse_reverse]

/-- Dropping the longest prefix and the longest suffix of bytes that
satisfy `p` gives the same string in either order. -/
theorem rdropWhile_dropWhile_comm {α : Type} (p : α → Bool) (l : List α) :
    (l.dropWhile p).rdropWhile p = (l.rdropWhile p).dropWhile p := by
  induction l using List.reverseRecOn with
  | nil => rfl
  | append_singleton l x ih =>
    rw [List.rdropWhile_concat, List.dropWhile_append]
    by_cases hx : p x = true
    · rw [if_pos hx, ← ih]
      by_cases he : (List.dropWhile p l).isEmpty = true
      · rw [if_pos he]
        have hnil : List.dropWhile p l = [] := List.isEmpty_iff.mp he
        simp [hnil, List.dropWhile, hx, List.rdropWhile]
      · rw [if_neg he, List.rdropWhile_concat, if_pos hx]
    · rw [if_neg hx, List.dropWhile_append]
      by_cases he : (List.dropWhile p l).isEmpty = true
      · rw [if_pos he]
        have hd : List.dropWhile p [x] = [x] := by simp [List.dropWhile, hx]
        rw [hd]
        have hr := List.rdropWhile_concat p [] x
        rw [if_neg hx] at hr
        exact hr
      · rw [if_neg he, List.rdropWhile_concat, if_neg hx]

theorem Trim_not_starts (s cutset : GoString) (b : UInt8) (hb : b ∈ cutset) :
    (Trim s cutset).head? ≠ some b := by
  unfold Trim
  split
  · rename_i h
    rcases h with h | h
    · subst h
      simp
    · subst h
      simp at hb
  · intro h
    have := head?_dropWhile_not_pos _ _ b h
    simp [hb] at this

theorem sanitize_not_startsInCutset (s : GoString) : ¬ startsInCutset (sanitize s) := by
  rintro ⟨b, hb, h⟩
  exact Trim_not_starts s sanitizeCutset b hb h

theorem Trim_eq_self (s cutset : GoString)
    (hs : ∀ b ∈ cutset, s.head? ≠ some b) (he : ∀ b ∈ cutset, s.getLast? ≠ some b) :
    Trim s cutset = s := by
  unfold Trim
  split
  · rfl
  · unfold trimLeftASCII trimRightASCII
    rw [rdropWhile_eq_self_of_getLast, dropWhile_eq_self_of_head]
    · intro a ha
      by_contra hp
      simp only [Bool.not_eq_false, decide_eq_true_eq] at hp
      exact hs a hp ha
    · intro a ha
      by_contra hp
      simp only [Bool.not_eq_false, decide_eq_true_eq] at hp
      exact he a hp ha

theorem sanitize_eq_self (s : GoString) (hs : ¬ startsInCutset s) (he : ¬ endsInCutset s) :
    sanitize s = s :=
  Trim_eq_self s sanitizeCutset (fun b hb h => hs ⟨b, hb, h⟩) (fun b hb h => he ⟨b, hb, h⟩)

theorem sanitize_idempotent (s : GoString) : sanitize (sanitize s) = sanitize s :=
  sanitize_eq_self _ (sanitize_not_startsInCutset s) (sanitize_not_endsInCutset s)

theorem StringHead_eq_self (s : GoString) (n : Nat) (h : s.length ≤ n) : StringHead s n = s := by
  unfold StringHead
  rw [if_pos h]

theorem sanitize_StringHead_idempotent (s : GoString) (n : Nat) :
    sanitize (StringHead (sanitize (StringHead s n)) n) = sanitize (StringHead s n) := by
  rw [StringHead_eq_self _ n (sanitize_StringHead_length_le s n), sanitize_idempotent]

theorem sanitize_StringHead_eq_self (s : GoString) (n : Nat) (hlen : s.length ≤ n)
    (hs : ¬ startsInCutset s) (he : ¬ endsInCutset s) : sanitize (StringHead s n) = s := by
  rw [StringHead_eq_self s n hlen, sanitize_eq_self s hs he]

/-! ## Idempotence of the name parts and the shape of `sanitize` -/

/-- C29: each name-part function is idempotent, and is the identity on a
string that is no longer than the budget of the part and neither starts
nor ends with `-`, `_` or `.`. -/
theorem namePart_idempotent_and_identity (n : namer) (s : GoString) :
    (n.namePartNamespace (n.namePartNamespace s) = n.namePartNamespace s
      ∧ n.namePartChiName (n.namePartChiName s) = n.namePartChiName s
      ∧ n.namePartClusterName (n.namePartClusterName s) = n.namePartClusterName s
      ∧ n.namePartShardName (n.namePartShardName s) = n.namePartShardName s
      ∧ n.namePartReplicaName (n.namePartReplicaName s) = n.namePartReplicaName s
      ∧ n.namePartHostName (n.namePartHostName s) = n.namePartHostName s)
    ∧ (¬ startsInCutset s → ¬ endsInCutset s →
        (s.length ≤ n.lenCHI → n.namePartNamespace s = s ∧ n.namePartChiName s = s)
        ∧ (s.length ≤ n.lenCluster → n.namePartClusterName s = s)
        ∧ (s.length ≤ n.lenShard → n.namePartShardName s = s)
        ∧ (s.length ≤ n.lenReplica → n.namePartReplicaName s = s ∧ n.namePartHostName s = s)) :=
  ⟨⟨sanitize_StringHead_idempotent _ _, sanitize_StringHead_idempotent _ _,
    sanitize_StringHead_idempotent _ _, sanitize_StringHead_idempotent _ _,
    sanitize_StringHead_idempotent _ _, sanitize_StringHead_idempotent _ _⟩,
   fun hs he =>
    ⟨fun h => ⟨sanitize_StringHead_eq_self _ _ h hs he, sanitize_StringHead_eq_self _ _ h hs he⟩,
     fun h => sanitize_StringHead_eq_self _ _ h hs he,
     fun h => sanitize_StringHead_eq_self _ _ h hs he,
     fun h => ⟨sanitize_StringHead_eq_self _ _ h hs he,
       sanitize_StringHead_eq_self _ _ h hs he⟩⟩⟩

theorem namePart_idempotent_and_identity_witness :
    ¬ startsInCutset (str "east-1.main")
    ∧ ¬ endsInCutset (str "east-1.main")
    ∧ (str "east-1.main").length ≤ (newNamer namerContextNames).lenCluster
    ∧ (newNamer namerContextNames).namePartClusterName (str "east-1.main") = str "east-1.main"
    ∧ (newNamer namerContextNames).namePartClusterName
        ((newNamer namerContextNames).namePartClusterName (str "-analytics-east-1-"))
      = str "analytics-east" :=
  ⟨by decide, by decide, by decide,
   ((namePart_idempotent_and_identity (newNamer namerContextNames) (str "east-1.main")).2
      (by decide) (by decide)).2.1 (by decide),
   ((namePart_idempotent_and_identity (newNamer namerContextNames)
      (str "-analytics-east-1-")).1.2.2.1).trans (by decide)⟩

/-- C30: `sanitize` removes bytes from the two ends only: the string is a
run of bytes of the cutset, then `sanitize(s)`, then a run of bytes of the
cutset, where `sanitize(s)` neither starts nor ends with a byte of the
cutset (so the two runs are the longest ones and the bytes of the cutset
between other bytes are kept); it is what is left after dropping the
longest such prefix and the longest such suffix, in either order. -/
theorem sanitize_trims_both_ends (s : GoString) :
    (∃ pre post : GoString,
      s = pre ++ sanitize s ++ post
      ∧ (∀ b ∈ pre, b ∈ sanitizeCutset)
      ∧ (∀ b ∈ post, b ∈ sanitizeCutset))
    ∧ ¬ startsInCutset (sanitize s)
    ∧ ¬ endsInCutset (sanitize s)
    ∧ sanitize s = (s.rdropWhile inSanitizeCutset).dropWhile inSanitizeCutset
    ∧ sanitize s = (s.dropWhile inSanitizeCutset).rdropWhile inSanitizeCutset := by
  have hdef : sanitize s = (s.rdropWhile inSanitizeCutset).dropWhile inSanitizeCutset := by
    unfold sanitize Trim
    split
    · rename_i h
      rcases h with h | h
      · subst h
        rfl
      · exact absurd h (by decide)
    · rfl
  refine ⟨⟨(s.rdropWhile inSanitizeCutset).takeWhile inSanitizeCutset,
      s.rtakeWhile inSanitizeCutset, ?_, ?_, ?_⟩,
    sanitize_not_startsInCutset s, sanitize_not_endsInCutset s, hdef, ?_⟩
  · rw [hdef, List.takeWhile_append_dropWhile, rdropWhile_append_rtakeWhile]
  · intro b hb
    have := List.mem_takeWhile_imp hb
    simpa [inSanitizeCutset] using this
  · intro b hb
    have := List.mem_rtakeWhile_imp hb
    simpa [inSanitizeCutset] using this
  · rw [hdef, rdropWhile_dropWhile_comm]

/-! ## Lemmas on the digits of `Itoa` -/

theorem mem_toDigitsCore_ten (fuel : Nat) : ∀ (n : Nat) (ds : List Char) (c : Char),
    c ∈ Nat.toDigitsCore 10 fuel n ds → c ∈ ds ∨ ∃ d, d < 10 ∧ c = Nat.digitChar d := by
  induction fuel with
  | zero =>
    intro n ds c h
    simp [Nat.toDigitsCore] at h
    exact Or.inl h
  | succ fuel ih =>
    intro n ds c h
    simp only [Nat.toDigitsCore] at h
    split at h
    · rcases List.mem_cons.mp h with h | h
      · exact Or.inr ⟨n % 10, Nat.mod_lt _ (by decide), h⟩
      · exact Or.inl h
    · rcases ih _ _ _ h with h | h
      · rcases List.mem_cons.mp h with h | h
        · exact Or.inr ⟨n % 10, Nat.mod_lt _ (by decide), h⟩
        · exact Or.inl h
      · exact Or.inr h

/-- The characters of an integer printed in decimal are `-` and digits. -/
theorem mem_toString_int (i : Int) (c : Char) (h : c ∈ (toString i).data) :
    c = Char.ofNat 0x2d ∨ ∃ d, d < 10 ∧ c = Nat.digitChar d := by
  cases i with
  | ofNat n =>
    have hd : (toString (Int.ofNat n)).data = Nat.toDigits 10 n := rfl
    rw [hd] at h
    rcases mem_toDigitsCore_ten _ _ _ _ h with h | h
    · simp at h
    · exact Or.inr h
  | negSucc n =>
    have hd : (toString (Int.negSucc n)).data = Char.ofNat 0x2d :: Nat.toDigits 10 (n + 1) := rfl
    rw [hd] at h
    rcases List.mem_cons.mp h with h | h
    · exact Or.inl h
    · rcases mem_toDigitsCore_ten _ _ _ _ h with h | h
      · simp at h
      · exact Or.inr h

theorem percent_not_mem_Itoa (i : Int) : (0x25 : UInt8) ∉ Itoa i := by
  intro h
  have hstr : Itoa i = (toString i).data.flatMap String.utf8EncodeChar := rfl
  rw [hstr, List.mem_flatMap] at h
  obtain ⟨c, hc, hb⟩ := h
  rcases mem_toString_int i c hc with hc | ⟨d, hd, hc⟩
  · subst hc
    exact absurd hb (by decide)
  · subst hc
    revert hb
    interval_cases d <;> decide

/-! ## Lemmas on `SprintfArgs` with literal text -/

theorem SprintfArgs_cons_of_ne (b : UInt8) (hb : b ≠ 0x25) (rest : GoString)
    (args : List FmtArg) : SprintfArgs (b :: rest) args = b :: SprintfArgs rest args := by
  rw [SprintfArgs]
  · intro h
    exact absurd h hb
  · intro _ _ h
    exact absurd h hb

theorem SprintfArgs_literal_append (l : GoString) (hl : (0x25 : UInt8) ∉ l) (rest : GoString)
    (args : List FmtArg) : SprintfArgs (l ++ rest) args = l ++ SprintfArgs rest args := by
  induction l with
  | nil => rfl
  | cons b l ih =>
    have hb : b ≠ 0x25 := fun h => hl (h ▸ List.mem_cons_self _ _)
    have hl2 : (0x25 : UInt8) ∉ l := fun h => hl (List.mem_cons_of_mem _ h)
    rw [List.cons_append, SprintfArgs_cons_of_ne b hb, ih hl2, List.cons_append]

theorem SprintfArgs_literal (l : GoString) (hl : (0x25 : UInt8) ∉ l) :
    SprintfArgs l [] = l := by
  have h := SprintfArgs_literal_append l hl [] []
  rw [List.append_nil] at h
  rw [h]
  simp [SprintfArgs]

/-- The message of the error of `ServiceSpecVerifyPorts`: formatting it a
second time, by `Errorf`, leaves it as it is, since it has no `%`. -/
theorem incorrectPort_message (port : Int) :
    Errorf (SprintfArgs (str "incorrect port :%d") [FmtArg.int port]) []
      = str "incorrect port :" ++ Itoa port := by
  have hp : str "incorrect port :%d" = str "incorrect port :" ++ str "%d" := by decide
  have hl : (0x25 : UInt8) ∉ str "incorrect port :" := by decide
  have hm : SprintfArgs (str "incorrect port :%d") [FmtArg.int port]
      = str "incorrect port :" ++ Itoa port := by
    rw [hp, SprintfArgs_literal_append _ hl, SprintfArgs_d]
  unfold Errorf
  rw [hm]
  apply SprintfArgs_literal
  intro h
  rcases List.mem_append.mp h with h | h
  · exact hl h
  · exact percent_not_mem_Itoa port h

/-! ## Ports of a service -/

theorem ServiceSpecVerifyPorts_loop_eq (IsPortInvalid : Int → Bool) (ports : List ServicePort) :
    ServiceSpecVerifyPorts.loop IsPortInvalid ports
      = (ports.find? (fun p => IsPortInvalid p.Port)).map
          (fun p => str "incorrect port :" ++ Itoa p.Port) := by
  induction ports with
  | nil => rfl
  | cons p rest ih =>
    unfold ServiceSpecVerifyPorts.loop
    by_cases h : IsPortInvalid p.Port = true
    · simp [h, List.find?, incorrectPort_message]
    · simp [h, List.find?, ih]

/-- C27: `ServiceSpecVerifyPorts` returns nil if and only if no port of
`spec.Ports` is invalid (so for an empty list of ports); otherwise it
returns an error whose message is `incorrect port :` followed by the
number of the first invalid port of the list. -/
theorem ServiceSpecVerifyPorts_spec (IsPortInvalid : Int → Bool) (spec : ServiceSpec) :
    (ServiceSpecVerifyPorts IsPortInvalid spec = none
      ↔ ∀ p ∈ spec.Ports, IsPortInvalid p.Port = false)
    ∧ ServiceSpecVerifyPorts IsPortInvalid { Ports := [] } = none
    ∧ (∀ p, spec.Ports.find? (fun p => IsPortInvalid p.Port) = some p →
        ServiceSpecVerifyPorts IsPortInvalid spec = some (str "incorrect port :" ++ Itoa p.Port))
    := by
  unfold ServiceSpecVerifyPorts
  refine ⟨?_, rfl, fun p hp => ?_⟩
  · rw [ServiceSpecVerifyPorts_loop_eq, Option.map_eq_none', List.find?_eq_none]
    simp
  · rw [ServiceSpecVerifyPorts_loop_eq, hp]
    rfl

theorem ServiceSpecVerifyPorts_spec_witness :
    sampleServiceSpec.Ports.find? (fun p => sampleIsPortInvalid p.Port) = some { Port := 0 }
    ∧ ServiceSpecVerifyPorts sampleIsPortInvalid sampleServiceSpec = some (str "incorrect port :0")
    ∧ ServiceSpecVerifyPorts sampleIsPortInvalid { Ports := [{ Port := 8123 }] } = none :=
  ⟨by decide,
   ((ServiceSpecVerifyPorts_spec sampleIsPortInvalid sampleServiceSpec).2.2 { Port := 0 }
      (by decide)).trans (by decide),
   (ServiceSpecVerifyPorts_spec sampleIsPortInvalid { Ports := [{ Port := 8123 }] }).1.mpr
     (by decide)⟩

/-! ## Lemmas on `ParseInt` and the sums of `WriteSystemParts` -/

theorem ParseInt_syntax_zero (v : GoString) (h : (ParseInt v).2 = some NumError.ErrSyntax) :
    (ParseInt v).1 = 0 := by
  cases v with
  | nil => rfl
  | cons c rest =>
    simp only [ParseInt] at h ⊢
    generalize ParseUint (if c = 0x2b ∨ c = 0x2d then rest else c :: rest) = u at h ⊢
    by_cases hs : u.2 = some NumError.ErrSyntax
    · rw [if_pos hs]
    · rw [if_neg hs] at h
      by_cases h1 : (!decide (c = 0x2d)) = true ∧ u.1 ≥ 2 ^ 63
      · rw [if_pos h1] at h
        simp at h
      · rw [if_neg h1] at h
        by_cases h2 : decide (c = 0x2d) = true ∧ u.1 > 2 ^ 63
        · rw [if_pos h2] at h
          simp at h
        · rw [if_neg h2] at h
          simp at h

theorem ParseInt_range_bound (v : GoString) (h : (ParseInt v).2 = some NumError.ErrRange) :
    (ParseInt v).1 = 2 ^ 63 - 1 ∨ (ParseInt v).1 = -2 ^ 63 := by
  cases v with
  | nil => simp [ParseInt] at h
  | cons c rest =>
    simp only [ParseInt] at h ⊢
    generalize ParseUint (if c = 0x2b ∨ c = 0x2d then rest else c :: rest) = u at h ⊢
    by_cases hs : u.2 = some NumError.ErrSyntax
    · rw [if_pos hs] at h
      simp at h
    · rw [if_neg hs] at h ⊢
      by_cases h1 : (!decide (c = 0x2d)) = true ∧ u.1 ≥ 2 ^ 63
      · rw [if_pos h1]
        exact Or.inl rfl
      · rw [if_neg h1] at h ⊢
        by_cases h2 : decide (c = 0x2d) = true ∧ u.1 > 2 ^ 63
        · rw [if_pos h2]
          exact Or.inr rfl
        · rw [if_neg h2] at h
          simp at h

theorem wrapInt64_of_inRange (x : Int) (h1 : -2 ^ 63 ≤ x) (h2 : x < 2 ^ 63) :
    wrapInt64 x = x := by
  unfold wrapInt64
  rw [Int.emod_eq_of_lt (by omega) (by omega)]
  omega

theorem int64Sum_eq_sum (values : List Int) :
    ∀ acc : Int, (∀ k, -2 ^ 63 ≤ acc + (values.take k).sum ∧ acc + (values.take k).sum < 2 ^ 63) →
      int64Sum acc values = acc + values.sum := by
  induction values with
  | nil =>
    intro acc _
    simp [int64Sum]
  | cons x rest ih =>
    intro acc h
    have h1 := h 1
    simp only [List.take_succ_cons, List.take_zero, List.sum_cons, List.sum_nil,
      add_zero] at h1
    have hw : wrapInt64 (acc + x) = acc + x := wrapInt64_of_inRange _ h1.1 h1.2
    have hrest := ih (acc + x) (fun k => by
      have hk := h (k + 1)
      simp only [List.take_succ_cons, List.sum_cons] at hk
      rw [add_assoc]
      exact hk)
    unfold int64Sum at hrest ⊢
    rw [List.foldl_cons, hw, hrest, List.sum_cons, add_assoc]

theorem drop_last_two (t : List GoString) (h : 2 ≤ t.length) :
    t.drop (t.length - 2) = [t.getD (t.length - 2) [], t.getD (t.length - 1) []] := by
  have h1 : t.length - 2 < t.length := by omega
  have h2 : t.length - 2 + 1 < t.length := by omega
  have h3 : t.length - 2 + 1 + 1 = t.length := by omega
  have h4 : t.length - 1 = t.length - 2 + 1 := by omega
  rw [List.drop_eq_getElem_cons h1, List.drop_eq_getElem_cons h2, h3, List.drop_length, h4]
  simp [List.getD_eq_getElem?_getD, List.getElem?_eq_getElem h1, List.getElem?_eq_getElem h2]

theorem WriteSystemParts_sums_eq (data : List (List GoString)) :
    ∀ d m : Int, (∀ t ∈ data, 2 ≤ t.length) →
      WriteSystemParts.sums data (d, m)
        = some (int64Sum d (data.map secondToLastValue), int64Sum m (data.map lastValue)) := by
  induction data with
  | nil =>
    intro d m _
    rfl
  | cons t rest ih =>
    intro d m h
    have ht : 2 ≤ t.length := h t (List.mem_cons_self _ _)
    have hlt : ¬ t.length < 2 := by omega
    unfold WriteSystemParts.sums
    rw [if_neg hlt, drop_last_two t ht]
    simp only [WriteSystemParts.parseInto, List.set_cons_zero, List.set_cons_succ,
      List.getD_cons_zero, List.getD_cons_succ]
    rw [ih _ _ (fun t ht => h t (List.mem_cons_of_mem _ ht))]
    rfl

theorem WriteSystemParts_of_sums (data : List (List GoString)) (d m : Int)
    (h : WriteSystemParts.sums data (0, 0) = some (d, m)) :
    WriteSystemParts data
      = { calls := [systemPartsMetric "metric.DiskDataBytes"
                      "Total data size for all ClickHouse tables" d,
                    systemPartsMetric "metric.MemoryPrimaryKeyBytesAllocated"
                      "Memory size allocated for primary keys" m],
          panicked := false } := by
  have hg : str "gauge" ≠ str "counter" := by decide
  unfold WriteSystemParts
  rw [h]
  simp [WriteMetrics, forEachRow, WriteMetrics.row, SprintfArgs_d, hg, systemPartsMetric]

/-! ## Lemmas on the decimal text of an integer -/

theorem utf8EncodeChar_digitChar (d : Nat) (hd : d < 10) :
    String.utf8EncodeChar (Nat.digitChar d) = [UInt8.ofNat (0x30 + d)] := by
  interval_cases d <;> decide

theorem digitByte_spec (d : Nat) (hd : d < 10) :
    (0x30 ≤ UInt8.ofNat (0x30 + d) ∧ UInt8.ofNat (0x30 + d) ≤ 0x39)
    ∧ (UInt8.ofNat (0x30 + d)).toNat - 0x30 = d := by
  interval_cases d <;> decide

theorem decimalDigitsValue_append_digit (d : Nat) (hd : d < 10) :
    ∀ (l : List UInt8) (acc : Nat),
      decimalDigitsValue acc (l ++ [UInt8.ofNat (0x30 + d)])
        = (decimalDigitsValue acc l).map (fun v => v * 10 + d) := by
  intro l
  induction l with
  | nil =>
    intro acc
    have h := digitByte_spec d hd
    simp [decimalDigitsValue, h.1.1, h.1.2, h.2]
  | cons c l ih =>
    intro acc
    simp only [List.cons_append, decimalDigitsValue]
    split
    · exact ih _
    · rfl

theorem toDigitsCore_ten_append (fuel : Nat) : ∀ (n : Nat) (ds : List Char),
    Nat.toDigitsCore 10 fuel n ds = Nat.toDigitsCore 10 fuel n [] ++ ds := by
  induction fuel with
  | zero =>
    intro n ds
    simp [Nat.toDigitsCore]
  | succ fuel ih =>
    intro n ds
    simp only [Nat.toDigitsCore]
    split
    · simp
    · rw [ih _ (_ :: ds), ih _ [_]]
      simp

/-- The digits printed for a natural number write that number. -/
theorem decimalDigitsValue_toDigitsCore (fuel : Nat) : ∀ n : Nat, n < fuel →
    decimalDigitsValue 0 ((Nat.toDigitsCore 10 fuel n []).flatMap String.utf8EncodeChar) = some n
    ∧ (Nat.toDigitsCore 10 fuel n []).flatMap String.utf8EncodeChar ≠ [] := by
  induction fuel with
  | zero =>
    intro n h
    omega
  | succ fuel ih =>
    intro n h
    have hd : n % 10 < 10 := Nat.mod_lt _ (by decide)
    have hb := digitByte_spec (n % 10) hd
    simp only [Nat.toDigitsCore]
    split
    · rename_i h0
      have hn : n % 10 = n := by omega
      simp only [List.flatMap_cons, List.flatMap_nil, List.append_nil]
      rw [utf8EncodeChar_digitChar _ hd]
      refine ⟨?_, by simp⟩
      simp only [decimalDigitsValue, hb.1.1, hb.1.2, hb.2, and_self, if_true]
      rw [hn]
      simp
    · rename_i h0
      have hlt : n / 10 < fuel := by omega
      rw [toDigitsCore_ten_append]
      have hi := ih (n / 10) hlt
      simp only [List.flatMap_append, List.flatMap_cons, List.flatMap_nil,
        List.append_nil] at hi ⊢
      rw [utf8EncodeChar_digitChar _ hd, decimalDigitsValue_append_digit _ hd, hi.1]
      refine ⟨?_, by simp⟩
      simp only [Option.map_some']
      congr 1
      omega

theorem Itoa_ofNat (n : Nat) :
    Itoa (Int.ofNat n) = (Nat.toDigits 10 n).flatMap String.utf8EncodeChar := rfl

theorem Itoa_negSucc (n : Nat) :
    Itoa (Int.negSucc n) = 0x2d :: (Nat.toDigits 10 (n + 1)).flatMap String.utf8EncodeChar := rfl

theorem decimalDigitsValue_toDigits (n : Nat) :
    decimalDigitsValue 0 ((Nat.toDigits 10 n).flatMap String.utf8EncodeChar) = some n
    ∧ (Nat.toDigits 10 n).flatMap String.utf8EncodeChar ≠ [] :=
  decimalDigitsValue_toDigitsCore (n + 1) n (Nat.lt_succ_self n)

/-- The first byte of a run of digits is a digit, so it is no sign. -/
theorem head_not_sign_of_decimalDigitsValue (c : UInt8) (rest : List UInt8) (acc v : Nat)
    (h : decimalDigitsValue acc (c :: rest) = some v) : ¬ (c = 0x2b ∨ c = 0x2d) := by
  simp only [decimalDigitsValue] at h
  split at h
  · rename_i hc
    rintro (h1 | h1)
    · rw [h1] at hc
      exact absurd hc.1 (by decide)
    · rw [h1] at hc
      exact absurd hc.1 (by decide)
  · simp at h

/-! ## Lemmas on `ParseFloat` and `ParseInt` of the text of an integer -/

theorem parseFloatOfIntegerText_digits (l : List UInt8) (a : Nat) (hne : l ≠ [])
    (hv : decimalDigitsValue 0 l = some a) (ha : a < 2 ^ 64) :
    parseFloatOfIntegerText l = some (roundToFloat64 (a : Int)) := by
  cases l with
  | nil => exact absurd rfl hne
  | cons c rest =>
    have hs := head_not_sign_of_decimalDigitsValue c rest 0 a hv
    have hneg : ¬ c = 0x2d := fun h => hs (Or.inr h)
    have hpos : ¬ c = 0x2b := fun h => hs (Or.inl h)
    have ha2 : a < 18446744073709551616 := by omega
    simp [parseFloatOfIntegerText, hpos, hneg, hv, ha2]

theorem parseFloatOfIntegerText_minus_digits (l : List UInt8) (a : Nat) (hne : l ≠ [])
    (hv : decimalDigitsValue 0 l = some a) (ha : a < 2 ^ 64) :
    parseFloatOfIntegerText (0x2d :: l) = some (roundToFloat64 (-(a : Int))) := by
  have ha2 : a < 18446744073709551616 := by omega
  simp [parseFloatOfIntegerText, hne, hv, ha2]

/-- The text of an integer is read back by `ParseFloat` as the `float64`
nearest to the integer. -/
theorem parseFloatOfIntegerText_Itoa (n : Int) (h : n.natAbs < 2 ^ 64) :
    parseFloatOfIntegerText (Itoa n) = some (roundToFloat64 n) := by
  cases n with
  | ofNat k =>
    rw [Itoa_ofNat]
    exact parseFloatOfIntegerText_digits _ k (decimalDigitsValue_toDigits k).2
      (decimalDigitsValue_toDigits k).1 h
  | negSucc k =>
    rw [Itoa_negSucc]
    exact parseFloatOfIntegerText_minus_digits _ (k + 1) (decimalDigitsValue_toDigits (k + 1)).2
      (decimalDigitsValue_toDigits (k + 1)).1 h

theorem roundToFloat64_of_small (n : Int) (h : n.natAbs < 2 ^ 53) : roundToFloat64 n = n := by
  have he : excessBits 64 n.natAbs = 0 := by
    simp only [excessBits, if_pos h]
  unfold roundToFloat64
  simp only [he, pow_zero, Nat.div_one, Nat.mod_one, Nat.mul_zero, Nat.mul_one]
  have h1 : ¬ (0 > 1 ∨ (0 = 1 ∧ n.natAbs % 2 = 1)) := by omega
  rw [if_neg h1]
  split <;> omega

theorem decimalDigitsValue_le (l : List UInt8) : ∀ acc v : Nat,
    decimalDigitsValue acc l = some v → acc ≤ v := by
  induction l with
  | nil =>
    intro acc v h
    simp only [decimalDigitsValue, Option.some.injEq] at h
    omega
  | cons c l ih =>
    intro acc v h
    simp only [decimalDigitsValue] at h
    split at h
    · have := ih _ _ h
      omega
    · simp at h

/-- On a run of digits that writes a number of the `uint64` range, the
loop of `ParseUint` returns that number. -/
theorem ParseUint_loop_of_value (l : List UInt8) : ∀ acc v : Nat,
    decimalDigitsValue acc l = some v → v ≤ maxUint64 → ParseUint.loop acc l = (v, none) := by
  induction l with
  | nil =>
    intro acc v h _
    simp only [decimalDigitsValue, Option.some.injEq] at h
    simp [ParseUint.loop, h]
  | cons c l ih =>
    intro acc v h hv
    simp only [decimalDigitsValue] at h
    split at h
    · rename_i hc
      have hle := decimalDigitsValue_le l _ _ h
      have hmax : maxUint64 = 18446744073709551615 := by decide
      have h1 : ¬ acc ≥ maxUint64 / 10 + 1 := by
        rw [hmax] at hv ⊢
        omega
      have h2 : ¬ acc * 10 + (c.toNat - 0x30) > maxUint64 := by omega
      simp only [ParseUint.loop, if_pos hc, if_neg h1, if_neg h2]
      exact ih _ _ h hv
    · simp at h

theorem ParseUint_of_value (l : List UInt8) (v : Nat) (hne : l ≠ [])
    (h : decimalDigitsValue 0 l = some v) (hv : v ≤ maxUint64) : ParseUint l = (v, none) := by
  unfold ParseUint
  rw [if_neg hne]
  exact ParseUint_loop_of_value l 0 v h hv

/-- The text of an integer of the `int64` range is read back by `ParseInt`
as that integer, without error. -/
theorem ParseInt_Itoa (n : Int) (h1 : -2 ^ 63 ≤ n) (h2 : n < 2 ^ 63) :
    ParseInt (Itoa n) = (n, none) := by
  have hmax : maxUint64 = 18446744073709551615 := by decide
  cases n with
  | ofNat k =>
    have hk : k < 2 ^ 63 := by
      have : (k : Int) < 2 ^ 63 := h2
      omega
    obtain ⟨hv, hne⟩ := decimalDigitsValue_toDigits k
    rw [Itoa_ofNat]
    generalize (Nat.toDigits 10 k).flatMap String.utf8EncodeChar = l at hv hne
    cases l with
    | nil => exact absurd rfl hne
    | cons c rest =>
      have hs := head_not_sign_of_decimalDigitsValue c rest 0 k hv
      have hneg : ¬ c = 0x2d := fun h => hs (Or.inr h)
      have hu := ParseUint_of_value (c :: rest) k hne hv (by rw [hmax]; omega)
      have hpos : ¬ c = 0x2b := fun h => hs (Or.inl h)
      have h63 : k < 9223372036854775808 := by omega
      simp [ParseInt, hpos, hneg, hu, h63]
  | negSucc k =>
    have hk : k + 1 ≤ 2 ^ 63 := by
      rw [Int.negSucc_eq] at h1
      omega
    obtain ⟨hv, hne⟩ := decimalDigitsValue_toDigits (k + 1)
    rw [Itoa_negSucc]
    generalize (Nat.toDigits 10 (k + 1)).flatMap String.utf8EncodeChar = l at hv hne
    have hu := ParseUint_of_value l (k + 1) hne hv (by rw [hmax]; omega)
    have h63 : ¬ 9223372036854775808 < k + 1 := by omega
    simp only [ParseInt]
    simp [hu, h63, Int.negSucc_eq]

theorem wrapInt64_inRange (x : Int) : -2 ^ 63 ≤ wrapInt64 x ∧ wrapInt64 x < 2 ^ 63 := by
  unfold wrapInt64
  have h1 := Int.emod_nonneg (x + 2 ^ 63) (show (2 : Int) ^ 64 ≠ 0 by norm_num)
  have h2 := Int.emod_lt_of_pos (x + 2 ^ 63) (show (0 : Int) < 2 ^ 64 by norm_num)
  constructor <;> omega

theorem int64Sum_inRange (values : List Int) : ∀ acc : Int,
    -2 ^ 63 ≤ acc ∧ acc < 2 ^ 63 →
      -2 ^ 63 ≤ int64Sum acc values ∧ int64Sum acc values < 2 ^ 63 := by
  induction values with
  | nil =>
    intro acc h
    exact h
  | cons x rest ih =>
    intro acc _
    have := ih (wrapInt64 (acc + x)) (wrapInt64_inRange _)
    simpa [int64Sum] using this

/-- The float value of a metric of `WriteSystemParts` for a sum of the
`int64` range: the `float64` nearest to the sum. -/
theorem systemPartsMetric_floatValue (name desc : String) (value : Int)
    (h : -2 ^ 63 ≤ value ∧ value < 2 ^ 63) :
    (systemPartsMetric name desc value).floatValue = some (roundToFloat64 value) := by
  unfold MetricCall.floatValue systemPartsMetric
  exact parseFloatOfIntegerText_Itoa value (by omega)

/-! ## The metrics of system.parts and of the table sizes -/

/-- C24, counterexample: a column that fails to parse need not contribute
0. The second-to-last column `9223372036854775808` fails with `ErrRange`
and contributes the largest `int64`, while the last column `x` fails with
`ErrSyntax` and contributes 0. The text `99999999999999999999x`, which is
not a decimal integer, fails with `ErrRange` as well, since `ParseUint`
stops at the digit that overflows, before it reads the `x`. The value
given to the first metric is then the `float64` nearest to the largest
`int64`, which is `2^63`. -/
theorem parseFailure_counterexample :
    ParseInt (str "9223372036854775808") = (9223372036854775807, some NumError.ErrRange)
    ∧ ParseInt (str "x") = (0, some NumError.ErrSyntax)
    ∧ ParseInt (str "99999999999999999999x") = (9223372036854775807, some NumError.ErrRange)
    ∧ WriteSystemParts [[str "9223372036854775808", str "x"]]
        = { calls := [systemPartsMetric "metric.DiskDataBytes"
                        "Total data size for all ClickHouse tables" 9223372036854775807,
                      systemPartsMetric "metric.MemoryPrimaryKeyBytesAllocated"
                        "Memory size allocated for primary keys" 0],
            panicked := false }
    ∧ WriteSystemParts [[str "99999999999999999999x", str "x"]]
        = WriteSystemParts [[str "9223372036854775808", str "x"]]
    ∧ (WriteSystemParts [[str "9223372036854775808", str "x"]]).calls.map MetricCall.floatValue
        = [some 9223372036854775808, some 0] := by
  decide

/-- C24, amended: in `WriteSystemParts` a value on which
`strconv.ParseInt(v, 10, 64)` reports a syntax error is treated as zero,
and a value on which it reports a range error as the nearest bound of
`int64`; the decimal text of an `int64` is read as that number. For every
list of rows with at least two columns each, `WriteSystemParts` builds
two gauges without panic: `DiskDataBytes` from the sum over the rows of
the second-to-last column and `MemoryPrimaryKeyBytesAllocated` from the
sum of the last column, each column read by `ParseInt` and added in
`int64` arithmetic, which is the plain sum when no partial sum leaves the
range of `int64`. Each sum is handed over as decimal text, and the value
given to the metric is the `float64` nearest to the sum (ties to the even
significand), which is the sum itself when its magnitude is below
`2^53`. -/
theorem WriteSystemParts_publishes_sums (data : List (List GoString))
    (h : ∀ t ∈ data, 2 ≤ t.length) :
    WriteSystemParts data
      = { calls := [systemPartsMetric "metric.DiskDataBytes"
                      "Total data size for all ClickHouse tables"
                      (int64Sum 0 (data.map secondToLastValue)),
                    systemPartsMetric "metric.MemoryPrimaryKeyBytesAllocated"
                      "Memory size allocated for primary keys"
                      (int64Sum 0 (data.map lastValue))],
          panicked := false }
    ∧ (∀ v, (ParseInt v).2 = some NumError.ErrSyntax → (ParseInt v).1 = 0)
    ∧ (∀ v, (ParseInt v).2 = some NumError.ErrRange →
        (ParseInt v).1 = 2 ^ 63 - 1 ∨ (ParseInt v).1 = -2 ^ 63)
    ∧ (∀ n : Int, -2 ^ 63 ≤ n → n < 2 ^ 63 → ParseInt (Itoa n) = (n, none))
    ∧ ((∀ k, -2 ^ 63 ≤ ((data.map secondToLastValue).take k).sum
          ∧ ((data.map secondToLastValue).take k).sum < 2 ^ 63) →
        int64Sum 0 (data.map secondToLastValue) = (data.map secondToLastValue).sum)
    ∧ ((∀ k, -2 ^ 63 ≤ ((data.map lastValue).take k).sum
          ∧ ((data.map lastValue).take k).sum < 2 ^ 63) →
        int64Sum 0 (data.map lastValue) = (data.map lastValue).sum)
    ∧ (WriteSystemParts data).calls.map MetricCall.floatValue
        = [some (roundToFloat64 (int64Sum 0 (data.map secondToLastValue))),
           some (roundToFloat64 (int64Sum 0 (data.map lastValue)))]
    ∧ (∀ n : Int, n.natAbs < 2 ^ 53 → roundToFloat64 n = n) := by
  have hrun := WriteSystemParts_of_sums data _ _ (WriteSystemParts_sums_eq data 0 0 h)
  have h0 : -(2 : Int) ^ 63 ≤ 0 ∧ (0 : Int) < 2 ^ 63 := by norm_num
  refine ⟨hrun, ParseInt_syntax_zero, ParseInt_range_bound, ParseInt_Itoa,
    fun hk => ?_, fun hk => ?_, ?_, roundToFloat64_of_small⟩
  · have := int64Sum_eq_sum (data.map secondToLastValue) 0 (by simpa using hk)
    simpa using this
  · have := int64Sum_eq_sum (data.map lastValue) 0 (by simpa using hk)
    simpa using this
  · rw [hrun]
    simp only [List.map_cons, List.map_nil]
    rw [systemPartsMetric_floatValue _ _ _ (int64Sum_inRange _ 0 h0),
      systemPartsMetric_floatValue _ _ _ (int64Sum_inRange _ 0 h0)]

theorem WriteSystemParts_publishes_sums_witness :
    (∀ t ∈ [[str "all", str "100", str "7"], [str "all", str "n/a", str "-2"]], 2 ≤ t.length)
    ∧ WriteSystemParts [[str "all", str "100", str "7"], [str "all", str "n/a", str "-2"]]
        = { calls := [systemPartsMetric "metric.DiskDataBytes"
                        "Total data size for all ClickHouse tables" 100,
                      systemPartsMetric "metric.MemoryPrimaryKeyBytesAllocated"
                        "Memory size allocated for primary keys" 5],
            panicked := false }
    ∧ (WriteSystemParts [[str "all", str "100", str "7"],
          [str "all", str "n/a", str "-2"]]).calls.map MetricCall.floatValue
        = [some 100, some 5] :=
  ⟨by decide,
   ((WriteSystemParts_publishes_sums
      [[str "all", str "100", str "7"], [str "all", str "n/a", str "-2"]]
      (by decide)).1).trans (by decide),
   ((WriteSystemParts_publishes_sums
      [[str "all", str "100", str "7"], [str "all", str "n/a", str "-2"]]
      (by decide)).2.2.2.2.2.2.1).trans (by decide)⟩

/-- C28: on a row of the documented shape (seven fields: database, table,
partitions, parts, bytes, uncompressed_bytes, rows) `WriteTableSizes`
makes four of its five calls and then reads `metric[7]`, past the end of
the row, and panics; a row needs eight fields for the five metrics. -/
theorem WriteTableSizes_seven_fields (f0 f1 f2 f3 f4 f5 f6 f7 : GoString) :
    (WriteTableSizes [[f0, f1, f2, f3, f4, f5, f6]]).panicked = true
    ∧ ((WriteTableSizes [[f0, f1, f2, f3, f4, f5, f6]]).calls.map (fun c => c.name)
        = [str "table_partitions", str "table_parts", str "table_parts_bytes",
           str "table_parts_bytes_uncompressed"])
    ∧ (WriteTableSizes [sampleTableSizesRow]).panicked = true
    ∧ (WriteTableSizes [[f0, f1, f2, f3, f4, f5, f6, f7]]).panicked = false
    ∧ ((WriteTableSizes [[f0, f1, f2, f3, f4, f5, f6, f7]]).calls.map (fun c => (c.name, c.value))
        = [(str "table_partitions", f3), (str "table_parts", f4), (str "table_parts_bytes", f5),
           (str "table_parts_bytes_uncompressed", f6), (str "table_parts_rows", f7)]) := by
  refine ⟨?_, ?_, by decide, ?_, ?_⟩ <;>
  simp [WriteTableSizes, forEachRow, WriteTableSizes.row, writeGauges]

/-! ## The names of a StatefulSet and of its service -/

/-- C31: the default pattern of the StatefulSet name and the default
pattern of the name of its service are the same string, so for every host
whose pod template and service template supply no `GenerateName` (no
template, or a template with an empty `GenerateName`),
`CreateStatefulSetName(host)`, `CreateStatefulSetServiceName(host)` and
`CreatePodHostname(host)` are equal. -/
theorem statefulSet_default_names_agree (m : MacrosEngine) (host : ChiHost) :
    statefulSetNamePattern m = statefulSetServiceNamePattern m
    ∧ ((∀ t, host.GetPodTemplate = some t → t.GenerateName = []) →
        (∀ t, host.GetServiceTemplate = some t → t.GenerateName = []) →
        CreateStatefulSetName m host = CreateStatefulSetServiceName m host
        ∧ CreateStatefulSetServiceName m host = CreatePodHostname m host
        ∧ CreateStatefulSetName m host = m.Line (Obj.host host) (statefulSetNamePattern m)) := by
  refine ⟨rfl, fun hpod hsvc => ?_⟩
  have h1 : CreateStatefulSetName m host = m.Line (Obj.host host) (statefulSetNamePattern m) := by
    unfold CreateStatefulSetName
    cases hp : host.GetPodTemplate with
    | none => rfl
    | some t => simp [hpod t hp]
  have h2 : CreateStatefulSetServiceName m host
      = m.Line (Obj.host host) (statefulSetServiceNamePattern m) := by
    unfold CreateStatefulSetServiceName
    cases hp : host.GetServiceTemplate with
    | none => rfl
    | some t => simp [hsvc t hp]
  exact ⟨h1.trans h2.symm, rfl, h1⟩

theorem statefulSet_default_names_agree_witness :
    (∀ t, sampleHostUsingFQDN.GetPodTemplate = some t → t.GenerateName = [])
    ∧ (∀ t, sampleHostUsingFQDN.GetServiceTemplate = some t → t.GenerateName = [])
    ∧ CreateStatefulSetName sampleMacros sampleHostUsingFQDN
        = CreateStatefulSetServiceName sampleMacros sampleHostUsingFQDN
    ∧ CreateStatefulSetServiceName sampleMacros sampleHostUsingFQDN
        = CreatePodHostname sampleMacros sampleHostUsingFQDN
    ∧ CreateStatefulSetName sampleMacros sampleHostUsingFQDN = str "chi-{chi}-{cluster}-{host}" :=
  ⟨by decide, by decide,
   ((statefulSet_default_names_agree sampleMacros sampleHostUsingFQDN).2
      (by decide) (by decide)).1,
   ((statefulSet_default_names_agree sampleMacros sampleHostUsingFQDN).2
      (by decide) (by decide)).2.1,
   (((statefulSet_default_names_agree sampleMacros sampleHostUsingFQDN).2
      (by decide) (by decide)).2.2).trans (by decide)⟩

/-! ## The queries of `getReplicatedObjectsSQLs` -/

/-- C32: when the context is not done and replication is warranted,
`getReplicatedObjectsSQLs` issues exactly three queries, in the order
database, table, function, each against the same list of addresses, the
pod FQDNs of all the hosts of the installation of the host (the host
itself included when it is listed there), every query on the remote state
left by the one before it; when `shouldCreateReplicatedObjects` is false
it issues no query and returns empty lists and no error. -/
theorem getReplicatedObjectsSQLs_queries {σ : Type} (m : MacrosEngine) (s : ClusterSchemer σ)
    (remote : σ) (ctx : Context) (host : ChiHost) :
    (IsContextDone ctx = false → shouldCreateReplicatedObjects m host = true →
      (getReplicatedObjectsSQLs m s remote ctx host).calls
        = [RemoteCall.QueryUnzip2Columns (host.GetCHI.WalkHosts.map (createPodFQDN m))
             (s.sqlCreateDatabaseReplicated host.data.Address.ClusterName),
           RemoteCall.QueryUnzipAndApplyUUIDs (host.GetCHI.WalkHosts.map (createPodFQDN m))
             (s.sqlCreateTableReplicated host.data.Address.ClusterName),
           RemoteCall.QueryUnzip2Columns (host.GetCHI.WalkHosts.map (createPodFQDN m))
             (s.sqlCreateFunction host.data.Address.ClusterName)]
      ∧ (getReplicatedObjectsSQLs m s remote ctx host).remote
          = (functionPass m s remote ctx host).2
      ∧ (host ∈ host.GetCHI.WalkHosts →
          createPodFQDN m host ∈ host.GetCHI.WalkHosts.map (createPodFQDN m)))
    ∧ (shouldCreateReplicatedObjects m host = false →
      (getReplicatedObjectsSQLs m s remote ctx host).calls = []
      ∧ (getReplicatedObjectsSQLs m s remote ctx host).names = []
      ∧ (getReplicatedObjectsSQLs m s remote ctx host).sqls = []
      ∧ (getReplicatedObjectsSQLs m s remote ctx host).err = none
      ∧ (getReplicatedObjectsSQLs m s remote ctx host).remote = remote) := by
  refine ⟨fun hctx hrep => ⟨?_, ?_, fun h => List.mem_map_of_mem _ h⟩, fun hrep => ?_⟩
  · simp [getReplicatedObjectsSQLs, hctx, hrep, CreateFQDNs_host_chi_false]
  · simp [getReplicatedObjectsSQLs, hctx, hrep, functionPass, tablePass, databasePass]
  · unfold getReplicatedObjectsSQLs
    split
    · exact ⟨rfl, rfl, rfl, rfl, rfl⟩
    · simp [hrep]

theorem getReplicatedObjectsSQLs_queries_witness :
    IsContextDone sampleLiveContext = false
    ∧ shouldCreateReplicatedObjects sampleMacros sampleHostOfPair = true
    ∧ (getReplicatedObjectsSQLs sampleMacros sampleSchemer () sampleLiveContext
        sampleHostOfPair).calls
      = [RemoteCall.QueryUnzip2Columns
           [str "a.prod.svc.cluster.local", str "b.prod.svc.cluster.local"] (str "databases"),
         RemoteCall.QueryUnzipAndApplyUUIDs
           [str "a.prod.svc.cluster.local", str "b.prod.svc.cluster.local"] (str "tables"),
         RemoteCall.QueryUnzip2Columns
           [str "a.prod.svc.cluster.local", str "b.prod.svc.cluster.local"] (str "functions")]
    ∧ shouldCreateReplicatedObjects sampleMacros sampleHostAlone = false
    ∧ (getReplicatedObjectsSQLs sampleMacros sampleSchemer () sampleLiveContext
        sampleHostAlone).calls = [] :=
  ⟨by decide, by decide,
   ((getReplicatedObjectsSQLs_queries sampleMacros sampleSchemer () sampleLiveContext
      sampleHostOfPair).1 (by decide) (by decide)).1.trans (by decide),
   by decide,
   ((getReplicatedObjectsSQLs_queries sampleMacros sampleSchemer () sampleLiveContext
      sampleHostAlone).2 (by decide)).1⟩

/-! ## The rows of `WriteMetrics` -/

theorem WriteMetrics_row_short (row : List GoString) (h : row.length < 2) :
    WriteMetrics.row row = { calls := [], panicked := false } := by
  unfold WriteMetrics.row
  rw [if_pos h]

theorem WriteMetrics_row_full (row : List GoString) (h : 4 ≤ row.length) :
    WriteMetrics.row row = { calls := [metricOfRow row], panicked := false } := by
  match row, h with
  | a :: b :: c :: d :: rest, _ =>
    simp [WriteMetrics.row, metricOfRow]

theorem WriteMetrics_row_two_or_three (row : List GoString)
    (h : row.length = 2 ∨ row.length = 3) :
    WriteMetrics.row row = { calls := [], panicked := true } := by
  match row, h with
  | [a, b], _ => simp [WriteMetrics.row]
  | [a, b, c], _ => simp [WriteMetrics.row]
  | [], h => simp at h
  | [a], h => simp at h
  | a :: b :: c :: d :: rest, h =>
    simp only [List.length_cons] at h
    omega

/-- On rows that are all skipped or complete, `WriteMetrics` publishes the
metrics of the complete rows, in order, and does not panic. -/
theorem WriteMetrics_of_good_rows (data : List (List GoString))
    (h : ∀ row ∈ data, row.length < 2 ∨ 4 ≤ row.length) :
    WriteMetrics data
      = { calls := (data.filter (fun row => decide (4 ≤ row.length))).map metricOfRow,
          panicked := false } := by
  unfold WriteMetrics
  induction data with
  | nil => rfl
  | cons row rest ih =>
    have ih2 := ih (fun r hr => h r (List.mem_cons_of_mem _ hr))
    unfold forEachRow
    rcases h row (List.mem_cons_self _ _) with hr | hr
    · have hn : ¬ 4 ≤ row.length := by omega
      simp [WriteMetrics_row_short row hr, ih2, hn]
    · simp [WriteMetrics_row_full row hr, ih2, hr]

/-- A row of 2 or 3 fields stops `WriteMetrics` with a panic, after the
metrics of the rows before it. -/
theorem WriteMetrics_of_bad_row (pre post : List (List GoString)) (bad : List GoString)
    (hpre : ∀ row ∈ pre, row.length < 2 ∨ 4 ≤ row.length)
    (hbad : bad.length = 2 ∨ bad.length = 3) :
    WriteMetrics (pre ++ bad :: post)
      = { calls := (pre.filter (fun row => decide (4 ≤ row.length))).map metricOfRow,
          panicked := true } := by
  unfold WriteMetrics
  induction pre with
  | nil =>
    simp [forEachRow, WriteMetrics_row_two_or_three bad hbad]
  | cons row rest ih =>
    have ih2 := ih (fun r hr => hpre r (List.mem_cons_of_mem _ hr))
    rw [List.cons_append]
    unfold forEachRow
    rcases hpre row (List.mem_cons_self _ _) with hr | hr
    · have hn : ¬ 4 ≤ row.length := by omega
      simp [WriteMetrics_row_short row hr, ih2, hn]
    · simp [WriteMetrics_row_full row hr, ih2, hr]

/-- C33: `WriteMetrics` skips every row with fewer than 2 fields and
publishes one metric for every row with at least 4 fields (a counter when
the fourth field is `counter`, a gauge for any other value), but for a
row with exactly 2 or 3 fields it reads a field past the end of the row
and panics; on a list of rows it publishes the metrics of the rows of at
least 4 fields, in order, up to the first row of 2 or 3 fields, where it
stops. -/
theorem WriteMetrics_rows (row : List GoString) (pre post : List (List GoString)) :
    (row.length < 2 → WriteMetrics.row row = { calls := [], panicked := false })
    ∧ (4 ≤ row.length →
        WriteMetrics.row row = { calls := [metricOfRow row], panicked := false }
        ∧ ((metricOfRow row).metricType = ValueType.CounterValue
            ↔ row.getD 3 [] = str "counter")
        ∧ ((metricOfRow row).metricType = ValueType.GaugeValue
            ↔ row.getD 3 [] ≠ str "counter"))
    ∧ (row.length = 2 ∨ row.length = 3 →
        WriteMetrics.row row = { calls := [], panicked := true })
    ∧ ((∀ r ∈ pre, r.length < 2 ∨ 4 ≤ r.length) →
        WriteMetrics pre
          = { calls := (pre.filter (fun r => decide (4 ≤ r.length))).map metricOfRow,
              panicked := false })
    ∧ ((∀ r ∈ pre, r.length < 2 ∨ 4 ≤ r.length) → (row.length = 2 ∨ row.length = 3) →
        WriteMetrics (pre ++ row :: post)
          = { calls := (pre.filter (fun r => decide (4 ≤ r.length))).map metricOfRow,
              panicked := true }) := by
  refine ⟨WriteMetrics_row_short row, fun h => ⟨WriteMetrics_row_full row h, ?_, ?_⟩,
    WriteMetrics_row_two_or_three row, WriteMetrics_of_good_rows pre,
    fun hpre hbad => WriteMetrics_of_bad_row pre post row hpre hbad⟩
  · unfold metricOfRow
    by_cases hk : row.getD 3 [] = str "counter" <;> simp [hk]
  · unfold metricOfRow
    by_cases hk : row.getD 3 [] = str "counter" <;> simp [hk]

theorem WriteMetrics_rows_witness :
    [str "Query", str "3"].length = 2
    ∧ WriteMetrics.row [str "Query", str "3"] = { calls := [], panicked := true }
    ∧ (∀ r ∈ [[str "only"], [str "Merge", str "7", str "merges", str "counter"]],
        r.length < 2 ∨ 4 ≤ r.length)
    ∧ WriteMetrics ([[str "only"], [str "Merge", str "7", str "merges", str "counter"]]
          ++ [str "Query", str "3"] :: [[str "Read", str "1", str "reads", str "gauge"]])
        = { calls := [{ name := str "Merge", desc := str "merges",
                        metricType := ValueType.CounterValue, value := str "7",
                        optionalLabels := [], optionalLabelValues := [] }],
            panicked := true } :=
  ⟨by decide,
   (WriteMetrics_rows [str "Query", str "3"] [] []).2.2.1 (Or.inl (by decide)),
   by decide,
   ((WriteMetrics_rows [str "Query", str "3"]
      [[str "only"], [str "Merge", str "7", str "merges", str "counter"]]
      [[str "Read", str "1", str "reads", str "gauge"]]).2.2.2.2
      (by decide) (Or.inl (by decide))).trans (by decide)⟩

end ClickHouseOperator
